import Mathlib

/-!
Verification of the `frequenz-microgrid-component-graph` repository.

This file gives a shallow embedding of the library's data model and the
operations referenced by the claims:

* the component category taxonomy (`src/component_category.rs`),
* the canonicalizing expression algebra (`src/graph/formulas/expr.rs`),
* the component graph, its retrieval operations and its validator
  (`src/graph.rs`, `src/graph/retrieval.rs`, `src/graph/creation.rs`,
  `src/graph/validation*.rs`),
* the meter-role classifier (`src/graph/meter_roles.rs`),
* the fallback resolver (`src/graph/formulas/fallback.rs`), and
* the consumer and battery formula generators
  (`src/graph/formulas/generators/{consumer,battery}.rs`).

Rust `u64` component ids are modelled as `Nat` (no arithmetic is ever
performed on ids, they are only compared, stored and printed, so overflow
cannot occur).  `f64` literals are modelled as `Int`: the only numeric
literals that occur in the embedded code paths are whole numbers (`0.0`),
for which the Rust display (`{:.1}` for `fract() == 0.0`) is reproduced
exactly.  Fallible Rust functions returning `Result<T, Error>` are modelled
as `Except Error T`.  Iterators become lists; `petgraph`'s
`neighbors_directed` iterates neighbors in reverse edge-insertion order,
which the embedding reproduces.  Functions whose Rust termination depends
on graph acyclicity take an explicit fuel argument; the public wrappers
supply a fuel that is ample for every graph the library accepts.
-/

namespace MCG

/-! ## Component categories (`src/component_category.rs`) -/

inductive InverterType where
  | Unspecified
  | Solar
  | Battery
  | Hybrid
deriving DecidableEq, Repr

inductive BatteryType where
  | Unspecified
  | LiIon
  | NaIon
deriving DecidableEq, Repr

inductive EvChargerType where
  | Unspecified
  | Ac
  | Dc
  | Hybrid
deriving DecidableEq, Repr

inductive ComponentCategory where
  | Unspecified
  | Grid
  | Meter
  | Battery (battery_type : BatteryType)
  | Inverter (inverter_type : InverterType)
  | EvCharger (ev_charger_type : EvChargerType)
  | Converter
  | CryptoMiner
  | Electrolyzer
  | Chp
  | Precharger
  | Fuse
  | VoltageTransformer
  | Hvac
  | Relay
deriving DecidableEq, Repr

/-- `Display for InverterType`. -/
def InverterType.str : InverterType → String
  | .Unspecified => "Unspecified"
  | .Solar => "Solar"
  | .Battery => "Battery"
  | .Hybrid => "Hybrid"

/-- `Display for BatteryType`. -/
def BatteryType.str : BatteryType → String
  | .Unspecified => "Unspecified"
  | .LiIon => "LiIon"
  | .NaIon => "NaIon"

/-- `Display for EvChargerType`. -/
def EvChargerType.str : EvChargerType → String
  | .Unspecified => "Unspecified"
  | .Ac => "AC"
  | .Dc => "DC"
  | .Hybrid => "Hybrid"

/-- `Display for ComponentCategory`. -/
def ComponentCategory.str : ComponentCategory → String
  | .Unspecified => "Unspecified"
  | .Grid => "Grid"
  | .Meter => "Meter"
  | .Battery t => "Battery(" ++ t.str ++ ")"
  | .Inverter t => t.str ++ "Inverter"
  | .EvCharger t => "EVCharger(" ++ t.str ++ ")"
  | .Converter => "Converter"
  | .CryptoMiner => "CryptoMiner"
  | .Electrolyzer => "Electrolyzer"
  | .Chp => "CHP"
  | .Precharger => "Precharger"
  | .Fuse => "Fuse"
  | .VoltageTransformer => "VoltageTransformer"
  | .Hvac => "HVAC"
  | .Relay => "Relay"

/-! ## Configuration (`src/config.rs`)

`allow_component_validation_failures` is used by `src/graph/validation.rs`
but its declaration is not among the source files; it is modelled from the
spec (section 6), which documents all three flags with default `false`. -/

structure ComponentGraphConfig where
  allow_unconnected_components : Bool := false
  allow_unspecified_inverters : Bool := false
  allow_component_validation_failures : Bool := false
deriving DecidableEq, Repr

/-! ## The `Node` capability (`src/graph_traits.rs`)

The graph is generic over a caller type implementing `Node`; the embedding
instantiates it with a record holding exactly the three exposed queries. -/

structure Component where
  component_id : Nat
  category : ComponentCategory
  is_supported : Bool := true
deriving DecidableEq, Repr

/-! Category predicates (`CategoryPredicates` in `src/component_category.rs`). -/

def Component.is_unspecified (c : Component) : Bool :=
  c.category = ComponentCategory.Unspecified

def Component.is_grid (c : Component) : Bool :=
  c.category = ComponentCategory.Grid

def Component.is_meter (c : Component) : Bool :=
  c.category = ComponentCategory.Meter

def Component.is_battery (c : Component) : Bool :=
  match c.category with
  | .Battery _ => true
  | _ => false

def Component.is_inverter (c : Component) : Bool :=
  match c.category with
  | .Inverter _ => true
  | _ => false

def Component.is_battery_inverter (c : Component) (config : ComponentGraphConfig) : Bool :=
  match c.category with
  | .Inverter .Battery => true
  | .Inverter .Unspecified => config.allow_unspecified_inverters
  | _ => false

def Component.is_pv_inverter (c : Component) : Bool :=
  c.category = ComponentCategory.Inverter InverterType.Solar

def Component.is_hybrid_inverter (c : Component) : Bool :=
  c.category = ComponentCategory.Inverter InverterType.Hybrid

def Component.is_unspecified_inverter (c : Component) (config : ComponentGraphConfig) : Bool :=
  match c.category with
  | .Inverter .Unspecified => !config.allow_unspecified_inverters
  | _ => false

def Component.is_ev_charger (c : Component) : Bool :=
  match c.category with
  | .EvCharger _ => true
  | _ => false

def Component.is_chp (c : Component) : Bool :=
  c.category = ComponentCategory.Chp

/-! ## The expression algebra (`src/graph/formulas/expr.rs`) -/

inductive Expr where
  | Neg (param : Expr)
  | Number (value : Int)
  | Component (component_id : Nat)
  | Add (params : List Expr)
  | Sub (params : List Expr)
  | Coalesce (params : List Expr)
  | Min (params : List Expr)
  | Max (params : List Expr)

/-! Size measure used for the operator fuel; not part of the source. -/

mutual

def wE : Expr → Nat
  | .Neg p => wE p + 1
  | .Number _ => 1
  | .Component _ => 1
  | .Add ps => wList ps + 1
  | .Sub ps => wList ps + 1
  | .Coalesce ps => wList ps + 1
  | .Min ps => wList ps + 1
  | .Max ps => wList ps + 1

def wList : List Expr → Nat
  | [] => 0
  | e :: es => wE e + wList es

end

/-- Top-level `Neg` nesting depth; not part of the source. -/
def nuE : Expr → Nat
  | .Neg p => nuE p + 1
  | _ => 0

def Expr.isNeg : Expr → Bool
  | .Neg _ => true
  | _ => false

/-! Helper pair computing `Expr::Add { params: t } + p` and
`Expr::Add { params: t } - h` for the case split the operators need on the
second operand only; `subAddList_spec`/`addAddList_spec` below prove them
equal to the general operators on those inputs. -/

mutual

def subAddList (t : List Expr) : Expr → Expr
  | .Neg q => addAddList t q
  | h => .Sub [.Add t, h]

def addAddList (t : List Expr) : Expr → Expr
  | .Neg q => subAddList t q
  | .Add ys => .Add (t ++ ys)
  | p => .Add (t ++ [p])

end

/-- `impl std::ops::Neg for Expr` (`expr.rs`).  `Neg` of `Sub { params }`
removes the first parameter and subtracts it from the `Add` of the rest;
on an empty parameter list the Rust code would panic (`Vec::remove(0)`),
which is unreachable because the operators never build an empty `Sub`; the
embedding returns `Sub []` unchanged there. -/
def negE : Expr → Expr
  | .Neg inner => inner
  | .Sub [] => .Sub []
  | .Sub (first :: rest) => subAddList rest first
  | x => .Neg x

/-! `impl std::ops::Add for Expr` and `impl std::ops::Sub for Expr`
(`expr.rs`), with an explicit fuel argument standing in for Rust's native
recursion.  The match arms are in source order, so the overlapping
patterns resolve exactly as in Rust. -/

mutual

def addF : Nat → Expr → Expr → Expr
  | 0, a, b => .Add [a, b]
  | n + 1, a, b =>
    match a, b with
    | .Neg p, .Neg q => negE (addF n p q)
    | x, .Neg p => subF n x p
    | .Neg p, x => subF n x p
    | .Add xs, .Add ys => .Add (xs ++ ys)
    | .Add xs, y => .Add (xs ++ [y])
    | x, .Add ys => .Add (x :: ys)
    | x, y => .Add [x, y]

def subF : Nat → Expr → Expr → Expr
  | 0, a, b => .Sub [a, b]
  | n + 1, a, b =>
    match a, b with
    | .Sub xs, .Neg p => addF n (.Sub xs) p
    | .Neg p, .Sub xs => subF n (negE (.Sub xs)) p
    | .Sub xs, y => .Sub (xs ++ [y])
    | .Neg p, .Neg q => .Sub [q, p]
    | .Neg p, y => negE (addF n p y)
    | x, .Neg p => addF n x p
    | x, y => .Sub [x, y]

end

/-- Fuel sufficient for `addF`/`subF` to run to completion
(`fuel_add_sub_stable` below proves any larger fuel gives the same value). -/
def opFuel (a b : Expr) : Nat := 3 * (wE a + wE b) + nuE a

/-- The canonicalizing `+` operator of `expr.rs`. -/
def Expr.add (a b : Expr) : Expr := addF (opFuel a b) a b

/-- The canonicalizing binary `-` operator of `expr.rs`. -/
def Expr.sub (a b : Expr) : Expr := subF (opFuel a b) a b

/-- The canonicalizing unary `-` operator of `expr.rs`. -/
def Expr.neg (a : Expr) : Expr := negE a

/-! Constructor helpers (`impl Expr` in `expr.rs`). -/

def Expr.number (value : Int) : Expr := .Number value

def Expr.component (component_id : Nat) : Expr := .Component component_id

def Expr.components (component_ids : List Nat) : List Expr :=
  component_ids.map Expr.component

def Expr.coalesce (params : List Expr) : Expr := .Coalesce params

def Expr.min (params : List Expr) : Expr := .Min params

def Expr.max (params : List Expr) : Expr := .Max params

/-- `Iterator::reduce(|a, b| a + b)` over a list of expressions. -/
def reduceAdd : List Expr → Option Expr
  | [] => none
  | e :: es => some (es.foldl Expr.add e)

/-! Display (`impl Display for Expr` and its helpers in `expr.rs`). -/

inductive BracketComponents where
  | First
  | Rest
  | All
  | None
deriving DecidableEq, Repr

def bracketAt (bc : BracketComponents) (idx : Nat) : Bool :=
  match bc with
  | .First => idx = 0
  | .Rest => 0 < idx
  | .All => true
  | .None => false

/-- Number display: the embedded code paths only build whole-number
literals, which Rust formats as `{:.1}` (`0.0`, `1.0`, …). -/
def numberStr (v : Int) : String := toString v ++ ".0"

/-! `join_params` / `generate_string` from `expr.rs`.  `joinLoop` renders
the parameters joined by `sep`, bracketing the components selected by
`bc`; `generateString e bracket_whole` renders one expression. -/

mutual

def generateString : Expr → Bool → String
  | .Neg param, _ => "-" ++ generateString param true
  | .Number value, _ => numberStr value
  | .Component component_id, _ => "#" ++ toString component_id
  | .Add params, bracket_whole =>
    let body := joinLoop params (" + ") BracketComponents.None 0
    if bracket_whole && 1 < params.length then "(" ++ body ++ ")" else body
  | .Sub params, bracket_whole =>
    let body := joinLoop params (" - ") BracketComponents.Rest 0
    if bracket_whole && 1 < params.length then "(" ++ body ++ ")" else body
  | .Coalesce params, _ =>
    "COALESCE(" ++ joinLoop params (", ") BracketComponents.None 0 ++ ")"
  | .Min params, _ =>
    "MIN(" ++ joinLoop params (", ") BracketComponents.None 0 ++ ")"
  | .Max params, _ =>
    "MAX(" ++ joinLoop params (", ") BracketComponents.None 0 ++ ")"

def joinLoop : List Expr → String → BracketComponents → Nat → String
  | [], _, _, _ => ""
  | e :: es, sep, bc, idx =>
    (if 0 < idx then sep else "") ++ generateString e (bracketAt bc idx)
      ++ joinLoop es sep bc (idx + 1)

end

/-- `Expr::to_string()` (`Display` with `bracket_whole = false`). -/
def exprStr (e : Expr) : String := generateString e false

/-! ## Errors (`src/error.rs`) -/

inductive ErrorKind where
  | ComponentNotFound
  | Internal
  | InvalidComponent
  | InvalidConnection
  | InvalidGraph
deriving DecidableEq, Repr

def ErrorKind.str : ErrorKind → String
  | .ComponentNotFound => "ComponentNotFound"
  | .Internal => "Internal"
  | .InvalidComponent => "InvalidComponent"
  | .InvalidConnection => "InvalidConnection"
  | .InvalidGraph => "InvalidGraph"

structure Error where
  kind : ErrorKind
  desc : String
deriving DecidableEq, Repr

def Error.component_not_found (desc : String) : Error := ⟨.ComponentNotFound, desc⟩

def Error.internal (desc : String) : Error := ⟨.Internal, desc⟩

def Error.invalid_component (desc : String) : Error := ⟨.InvalidComponent, desc⟩

def Error.invalid_connection (desc : String) : Error := ⟨.InvalidConnection, desc⟩

def Error.invalid_graph (desc : String) : Error := ⟨.InvalidGraph, desc⟩

/-- `impl Display for Error`: `"{kind}: {desc}"`. -/
def errorStr (e : Error) : String := e.kind.str ++ ": " ++ e.desc

/-- `Result::unwrap_or(false)` on a boolean result. -/
def resultTrue (r : Except Error Bool) : Bool :=
  match r with
  | .ok b => b
  | .error _ => false

/-! ## The `Edge` capability (`src/graph_traits.rs`) -/

/-- A caller connection.  The `Edge` trait exposes only `source` and
`destination`; `payload` stands for whatever extra data the caller's edge
type carries, so that distinct edge values for the same `(src, dst)` pair
can be told apart (the graph retains the caller's value per pair). -/
structure Connection where
  source : Nat
  destination : Nat
  payload : Nat := 0
deriving DecidableEq, Repr

/-! ## Small ordered-set helpers (Rust `BTreeSet<u64>` as a sorted,
duplicate-free list iterated in ascending order) -/

def sortedInsert (x : Nat) : List Nat → List Nat
  | [] => [x]
  | y :: ys => if x < y then x :: y :: ys else if x = y then y :: ys else y :: sortedInsert x ys

def toSortedSet (l : List Nat) : List Nat := l.foldl (fun s x => sortedInsert x s) []

/-- `Vec<u64>` debug formatting (`{:?}`), used inside error messages. -/
def debugList (l : List Nat) : String :=
  "[" ++ String.intercalate ", " (l.map toString) ++ "]"

/-! ## The graph container (`src/graph.rs`)

`petgraph::DiGraph` stores nodes in insertion order and, for a fixed
direction, iterates `neighbors_directed` in reverse edge-insertion order;
`update_edge` collapses a repeated `(src, dst)` pair, keeping the edge at
its original position.  The embedding stores components in insertion
order, edges as id pairs in insertion order without duplicates, and the
`EdgeMap` as an association list with insert-overwrite semantics. -/

structure ComponentGraph where
  components : List Component
  edges : List (Nat × Nat)
  edge_values : List ((Nat × Nat) × Connection)
  root_id : Nat
  config : ComponentGraphConfig

/-! ## Retrieval (`src/graph/retrieval.rs`) -/

def ComponentGraph.componentOpt (g : ComponentGraph) (component_id : Nat) : Option Component :=
  g.components.find? (fun c => c.component_id == component_id)

def ComponentGraph.component (g : ComponentGraph) (component_id : Nat) : Except Error Component :=
  match g.componentOpt component_id with
  | none =>
    .error (Error.component_not_found
      ("Component with id " ++ toString component_id ++ " not found."))
  | some c => .ok c

/-- Successor ids of a node, in `petgraph` iteration order
(reverse edge-insertion order). -/
def ComponentGraph.succIds (g : ComponentGraph) (component_id : Nat) : List Nat :=
  ((g.edges.filter (fun e => e.1 == component_id)).map Prod.snd).reverse

/-- Predecessor ids of a node, in `petgraph` iteration order. -/
def ComponentGraph.predIds (g : ComponentGraph) (component_id : Nat) : List Nat :=
  ((g.edges.filter (fun e => e.2 == component_id)).map Prod.fst).reverse

def ComponentGraph.succComponents (g : ComponentGraph) (component_id : Nat) : List Component :=
  (g.succIds component_id).filterMap g.componentOpt

def ComponentGraph.predComponents (g : ComponentGraph) (component_id : Nat) : List Component :=
  (g.predIds component_id).filterMap g.componentOpt

def ComponentGraph.successors (g : ComponentGraph) (component_id : Nat) :
    Except Error (List Component) :=
  match g.componentOpt component_id with
  | none =>
    .error (Error.component_not_found
      ("Component with id " ++ toString component_id ++ " not found."))
  | some _ => .ok (g.succComponents component_id)

def ComponentGraph.predecessors (g : ComponentGraph) (component_id : Nat) :
    Except Error (List Component) :=
  match g.componentOpt component_id with
  | none =>
    .error (Error.component_not_found
      ("Component with id " ++ toString component_id ++ " not found."))
  | some _ => .ok (g.predComponents component_id)

/-- The `Siblings` iterator's filtering (`src/graph/iterators.rs`): skip
the component itself and already-seen ids, keeping first occurrences. -/
def dedupSkip (self_id : Nat) (seen : List Nat) : List Nat → List Nat
  | [] => []
  | x :: xs =>
    if x == self_id || seen.contains x then dedupSkip self_id seen xs
    else x :: dedupSkip self_id (x :: seen) xs

def ComponentGraph.siblingIdsFromPredecessors (g : ComponentGraph) (component_id : Nat) :
    List Nat :=
  dedupSkip component_id [] (((g.predIds component_id).map g.succIds).flatten)

def ComponentGraph.siblings_from_predecessors (g : ComponentGraph) (component_id : Nat) :
    Except Error (List Component) :=
  match g.componentOpt component_id with
  | none =>
    .error (Error.component_not_found
      ("Component with id " ++ toString component_id ++ " not found."))
  | some _ => .ok ((g.siblingIdsFromPredecessors component_id).filterMap g.componentOpt)

def ComponentGraph.siblingIdsFromSuccessors (g : ComponentGraph) (component_id : Nat) :
    List Nat :=
  dedupSkip component_id [] (((g.succIds component_id).map g.predIds).flatten)

def ComponentGraph.siblings_from_successors (g : ComponentGraph) (component_id : Nat) :
    Except Error (List Component) :=
  match g.componentOpt component_id with
  | none =>
    .error (Error.component_not_found
      ("Component with id " ++ toString component_id ++ " not found."))
  | some _ => .ok ((g.siblingIdsFromSuccessors component_id).filterMap g.componentOpt)

/-- Ample fuel for the worklist traversals on any graph the library
accepts (they are only reached on acyclic inputs of the scenarios here). -/
def graphFuel (g : ComponentGraph) : Nat :=
  let b := g.components.length + g.edges.length + 2
  b * b * b

/-- The explicit-stack DFS of `find_all` (`src/graph/retrieval.rs`):
`stack.pop()` takes the most recently pushed node; matches are collected
into a `BTreeSet`; when `follow_after_match` is false the search does not
descend through a matched node. -/
def findAllLoop (g : ComponentGraph) (pred : Component → Bool) (follow_after_match : Bool) :
    Nat → List Nat → List Nat → List Nat
  | 0, _, found => found
  | _ + 1, [], found => found
  | fuel + 1, n :: stack, found =>
    match g.componentOpt n with
    | none => findAllLoop g pred follow_after_match fuel stack found
    | some node =>
      if pred node then
        let found2 := sortedInsert node.component_id found
        if !follow_after_match then findAllLoop g pred follow_after_match fuel stack found2
        else findAllLoop g pred follow_after_match fuel ((g.succIds n).reverse ++ stack) found2
      else findAllLoop g pred follow_after_match fuel ((g.succIds n).reverse ++ stack) found

def ComponentGraph.find_all (g : ComponentGraph) (from_id : Nat) (pred : Component → Bool)
    (follow_after_match : Bool) : Except Error (List Nat) :=
  match g.componentOpt from_id with
  | none =>
    .error (Error.component_not_found
      ("Component with id " ++ toString from_id ++ " not found."))
  | some _ => .ok (findAllLoop g pred follow_after_match (graphFuel g) [from_id] [])

/-! ## Meter roles (`src/graph/meter_roles.rs`) -/

def ComponentGraph.pvMeterB (g : ComponentGraph) (c : Component) : Bool :=
  c.is_meter && (g.succComponents c.component_id).all Component.is_pv_inverter
    && !(g.succComponents c.component_id).isEmpty

def ComponentGraph.batteryMeterB (g : ComponentGraph) (c : Component) : Bool :=
  c.is_meter && (g.succComponents c.component_id).all (fun n => n.is_battery_inverter g.config)
    && !(g.succComponents c.component_id).isEmpty

def ComponentGraph.evChargerMeterB (g : ComponentGraph) (c : Component) : Bool :=
  c.is_meter && (g.succComponents c.component_id).all Component.is_ev_charger
    && !(g.succComponents c.component_id).isEmpty

def ComponentGraph.chpMeterB (g : ComponentGraph) (c : Component) : Bool :=
  c.is_meter && (g.succComponents c.component_id).all Component.is_chp
    && !(g.succComponents c.component_id).isEmpty

def ComponentGraph.is_pv_meter (g : ComponentGraph) (component_id : Nat) : Except Error Bool :=
  match g.component component_id with
  | .error e => .error e
  | .ok c => .ok (g.pvMeterB c)

def ComponentGraph.is_battery_meter (g : ComponentGraph) (component_id : Nat) :
    Except Error Bool :=
  match g.component component_id with
  | .error e => .error e
  | .ok c => .ok (g.batteryMeterB c)

def ComponentGraph.is_ev_charger_meter (g : ComponentGraph) (component_id : Nat) :
    Except Error Bool :=
  match g.component component_id with
  | .error e => .error e
  | .ok c => .ok (g.evChargerMeterB c)

def ComponentGraph.is_chp_meter (g : ComponentGraph) (component_id : Nat) : Except Error Bool :=
  match g.component component_id with
  | .error e => .error e
  | .ok c => .ok (g.chpMeterB c)

/-- Modelled from the spec: `is_component_meter` is called by
`fallback.rs` but its definition is not among the source files; section
4.4 of the spec defines it as the disjunction of the four classifiers
above. -/
def ComponentGraph.is_component_meter (g : ComponentGraph) (component_id : Nat) :
    Except Error Bool :=
  match g.component component_id with
  | .error e => .error e
  | .ok c => .ok (g.pvMeterB c || g.batteryMeterB c || g.evChargerMeterB c || g.chpMeterB c)

/-- Modelled from the spec: `has_successors` is called by `fallback.rs`
and `consumer.rs` but its definition is not among the source files; per
section 4.5 it tests for at least one successor. -/
def ComponentGraph.has_successors (g : ComponentGraph) (component_id : Nat) :
    Except Error Bool :=
  match g.component component_id with
  | .error e => .error e
  | .ok _ => .ok (!(g.succIds component_id).isEmpty)

/-- Modelled from the spec: `has_meter_successors` is called by
`fallback.rs` and `consumer.rs` but its definition is not among the
source files; per section 4.5 it tests for a meter among the successors. -/
def ComponentGraph.has_meter_successors (g : ComponentGraph) (component_id : Nat) :
    Except Error Bool :=
  match g.component component_id with
  | .error e => .error e
  | .ok _ => .ok ((g.succComponents component_id).any Component.is_meter)

/-! ## The fallback resolver (`src/graph/formulas/fallback.rs`) -/

/-- `FallbackExpr::meter_fallback`. -/
def ComponentGraph.meter_fallback (g : ComponentGraph) (prefer_meters : Bool)
    (component_id : Nat) : Except Error (Option Expr) :=
  match g.component component_id with
  | .error e => .error e
  | .ok component =>
    if component.is_meter && !(g.succIds component_id).isEmpty
        && !((g.succComponents component_id).any Component.is_meter) then
      if (g.succComponents component_id).all Component.is_supported then
        match reduceAdd (Expr.components ((g.succComponents component_id).map
            Component.component_id)) with
        | none => .error (Error.internal ("Can't find successors of components with successors."))
        | some sumExpr =>
          let exprs := [sumExpr, Expr.component component_id]
          let exprs := if prefer_meters then exprs.reverse else exprs
          .ok (some (Expr.coalesce exprs))
      else .ok (some (Expr.component component_id))
    else .ok none

/-! `FallbackExpr::fallback_for_each` and `FallbackExpr::component_fallback`.
The Rust recursion's termination rests on graph acyclicity; the embedding
threads a fuel argument, decremented once per popped id and once per
recursion into the predecessors. -/

mutual

def fallback_for_each (g : ComponentGraph) (prefer_meters : Bool) :
    Nat → List Nat → Except Error (List Expr)
  | 0, _ => .error (Error.internal ("Fallback recursion fuel exhausted."))
  | _ + 1, [] => .ok []
  | fuel + 1, component_id :: rest =>
    match g.meter_fallback prefer_meters component_id with
    | .error e => .error e
    | .ok (some formula) =>
      match fallback_for_each g prefer_meters fuel rest with
      | .error e => .error e
      | .ok exprs => .ok (formula :: exprs)
    | .ok none =>
      match component_fallback g prefer_meters fuel rest component_id with
      | .error e => .error e
      | .ok (some formulas, rest2) =>
        match fallback_for_each g prefer_meters fuel rest2 with
        | .error e => .error e
        | .ok exprs => .ok (formulas ++ exprs)
      | .ok (none, rest2) =>
        match fallback_for_each g prefer_meters fuel rest2 with
        | .error e => .error e
        | .ok exprs => .ok (Expr.component component_id :: exprs)

def component_fallback (g : ComponentGraph) (prefer_meters : Bool) :
    Nat → List Nat → Nat → Except Error (Option (List Expr) × List Nat)
  | 0, _, _ => .error (Error.internal ("Fallback recursion fuel exhausted."))
  | fuel + 1, component_ids, component_id =>
  match g.component component_id with
  | .error e => .error e
  | .ok component =>
    if component.is_battery_inverter g.config || component.is_chp
        || component.is_pv_inverter || component.is_ev_charger then
      match g.siblings_from_predecessors component_id with
      | .error e => .error e
      | .ok sibs =>
        let siblings := sibs.filter (fun s => s.component_id != component_id)
        if !siblings.all (fun s => component_ids.contains s.component_id) then
          .ok (some [Expr.component component_id], component_ids)
        else
          match g.predecessors component_id with
          | .error e => .error e
          | .ok predecessors =>
            if predecessors.all (fun p => resultTrue (g.is_component_meter p.component_id)) then
              let component_ids2 := component_ids.filter
                (fun x => !siblings.any (fun s => s.component_id == x))
              let predecessor_ids := toSortedSet (predecessors.map Component.component_id)
              match fallback_for_each g prefer_meters fuel predecessor_ids with
              | .error e => .error e
              | .ok expressions => .ok (some expressions, component_ids2)
            else .ok (none, component_ids)
    else .ok (none, component_ids)

end

/-- Fuel ample for `fallback_for_each` on every accepted graph. -/
def fallbackFuel (g : ComponentGraph) (component_ids : List Nat) : Nat :=
  (g.components.length + component_ids.length + 2) * (g.components.length + 2)

/-- `ComponentGraph::fallback_expr` composed with `FallbackExpr::generate`. -/
def ComponentGraph.fallback_expr (g : ComponentGraph) (component_ids : List Nat)
    (prefer_meters : Bool) : Except Error Expr :=
  match fallback_for_each g prefer_meters (fallbackFuel g component_ids)
      (toSortedSet component_ids) with
  | .error e => .error e
  | .ok exprs =>
    match reduceAdd exprs with
    | none => .error (Error.internal ("Search for fallback components failed."))
    | some e => .ok e

/-! ## The consumer formula builder
(`src/graph/formulas/generators/consumer.rs`) -/

/-- The per-successor subtraction loop of
`ConsumerFormulaBuilder::component_consumption`: the merged successor map
is a `BTreeMap`, iterated in ascending id order; meters are subtracted
through `fallback_expr([x], prefer_meters = true)`, other components
directly. -/
def subtractSuccessors (g : ComponentGraph) (expr : Expr) : List Nat → Except Error Expr
  | [] => .ok expr
  | x :: xs =>
    match g.componentOpt x with
    | none => subtractSuccessors g expr xs
    | some succ =>
      if succ.is_meter then
        match g.fallback_expr [x] true with
        | .error e => .error e
        | .ok fe => subtractSuccessors g (expr.sub fe) xs
      else subtractSuccessors g (expr.sub (Expr.Component x)) xs

/-- `ConsumerFormulaBuilder::component_consumption`.  Returns the
consumption expression together with the updated `unvisited_meters` set. -/
def component_consumption (g : ComponentGraph) (unvisited : List Nat) (component_id : Nat) :
    Except Error (Expr × List Nat) :=
  match g.component component_id with
  | .error e => .error e
  | .ok component =>
    if component.is_meter then
      let unvisited1 := unvisited.filter (fun x => x != component_id)
      let expr := Expr.Component component_id
      match g.siblings_from_successors component_id with
      | .error e => .error e
      | .ok sibs =>
        let expr := sibs.foldl (fun e s => e.add (Expr.Component s.component_id)) expr
        let unvisited2 := unvisited1.filter
          (fun x => !sibs.any (fun s => s.component_id == x))
        let succSet := toSortedSet
          (g.succIds component_id ++ (sibs.map (fun s => g.succIds s.component_id)).flatten)
        match subtractSuccessors g expr succSet with
        | .error e => .error e
        | .ok expr2 =>
          let expr3 := Expr.max [Expr.number 0, expr2]
          let expr4 :=
            if !(g.succIds component_id).isEmpty
                && !((g.succComponents component_id).any Component.is_meter) then
              Expr.coalesce [expr3, Expr.number 0]
            else expr3
          .ok (expr4, unvisited2)
    else .ok (Expr.max [Expr.number 0, Expr.Component component_id], unvisited)

/-- The `while let Some(meter_id) = unvisited_meters.pop_first()` loop of
`ConsumerFormulaBuilder::build`. -/
def consumerLoop (g : ComponentGraph) :
    Nat → List Nat → Option Expr → Except Error (Option Expr)
  | 0, _, _ => .error (Error.internal ("Consumer fuel exhausted."))
  | _ + 1, [], acc => .ok acc
  | fuel + 1, meter_id :: rest, acc =>
    match component_consumption g rest meter_id with
    | .error e => .error e
    | .ok (consumption, unvisited) =>
      let acc2 := match acc with
        | some e => some (e.add consumption)
        | none => some consumption
      consumerLoop g fuel unvisited acc2

/-- The non-meter, non-battery-inverter direct successors of the root. -/
def otherGridSuccessors (g : ComponentGraph) : List Component :=
  (g.succComponents g.root_id).filter
    (fun s => !s.is_meter && !(s.is_battery_inverter g.config))

/-- The `reduce(|a, b| Ok(a? + b?))` over the root's other successors. -/
def consumeOthers (g : ComponentGraph) : List Component → Option Expr →
    Except Error (Option Expr)
  | [], acc => .ok acc
  | s :: rest, acc =>
    match component_consumption g [] s.component_id with
    | .error e => .error e
    | .ok (c, _) =>
      consumeOthers g rest (some (match acc with | none => c | some e => e.add c))

/-- `ComponentGraph::consumer_formula` /
`ConsumerFormulaBuilder::try_new` + `build`. -/
def ComponentGraph.consumer_formula (g : ComponentGraph) : Except Error String :=
  match g.find_all g.root_id Component.is_meter true with
  | .error e => .error e
  | .ok unvisited_meters =>
    match consumerLoop g (unvisited_meters.length + 2) unvisited_meters none with
    | .error e => .error e
    | .ok all_meters =>
      match consumeOthers g (otherGridSuccessors g) none with
      | .error e => .error e
      | .ok other_grid_successors =>
        match all_meters, other_grid_successors with
        | some lhs, some rhs => .ok (exprStr (lhs.add rhs))
        | none, some e => .ok (exprStr e)
        | some e, none => .ok (exprStr e)
        | none, none => .ok ("0.0")

/-! ## The battery formula builder
(`src/graph/formulas/generators/battery.rs`) -/

/-- The sibling check inside `BatteryFormulaBuilder::find_inverter_ids`:
every sibling-from-predecessors of a selected battery must itself be
selected; the error message reprints all sibling ids in iteration order
(`{:?}` of the collected `Vec<u64>`). -/
def checkSiblingsSelected (g : ComponentGraph) (battery_ids : List Nat)
    (battery_id : Nat) : List Component → Except Error Unit
  | [] => .ok ()
  | s :: rest =>
    if !battery_ids.contains s.component_id then
      .error (Error.invalid_component ("Battery " ++ toString battery_id
        ++ " can't be in a formula without all its siblings: "
        ++ debugList (g.siblingIdsFromPredecessors battery_id) ++ "."))
    else checkSiblingsSelected g battery_ids battery_id rest

/-- The loop of `BatteryFormulaBuilder::find_inverter_ids`, iterating the
selected battery ids in ascending order and accumulating the predecessor
(inverter) ids as a sorted set. -/
def fiiLoop (g : ComponentGraph) (battery_ids : List Nat) :
    List Nat → List Nat → Except Error (List Nat)
  | [], acc => .ok acc
  | battery_id :: rest, acc =>
    match g.component battery_id with
    | .error e => .error e
    | .ok c =>
      if !c.is_battery then
        .error (Error.invalid_component
          ("Component with id " ++ toString battery_id ++ " is not a battery."))
      else
        match g.siblings_from_predecessors battery_id with
        | .error e => .error e
        | .ok sibs =>
          match checkSiblingsSelected g battery_ids battery_id sibs with
          | .error e => .error e
          | .ok _ =>
            match g.predecessors battery_id with
            | .error e => .error e
            | .ok preds =>
              fiiLoop g battery_ids rest
                (preds.foldl (fun a p => sortedInsert p.component_id a) acc)

/-- `BatteryFormulaBuilder::find_inverter_ids`. -/
def find_inverter_ids (g : ComponentGraph) (battery_ids : List Nat) :
    Except Error (List Nat) :=
  fiiLoop g battery_ids battery_ids []

/-- `ComponentGraph::battery_formula` /
`BatteryFormulaBuilder::try_new` + `build`. -/
def ComponentGraph.battery_formula (g : ComponentGraph)
    (battery_ids : Option (List Nat)) : Except Error String :=
  match (match battery_ids with
    | some ids => find_inverter_ids g (toSortedSet ids)
    | none => g.find_all g.root_id (fun n => n.is_battery_inverter g.config) false) with
  | .error e => .error e
  | .ok inverter_ids =>
    if inverter_ids.isEmpty then .ok ("0.0")
    else
      match g.fallback_expr inverter_ids false with
      | .error e => .error e
      | .ok expr => .ok (exprStr expr)

/-! ## Invariant checks (`src/graph/validation/invariant_checks.rs`) -/

/-- `"{category}:{component_id}"`, the node spelling inside diagnostics. -/
def categoryId (c : Component) : String :=
  c.category.str ++ ":" ++ toString c.component_id

/-- Generic first-failure traversal used by the checks below; mirrors the
`for` loops that return the first offending neighbor. -/
def firstError : List Component → (Component → Option Error) → Except Error Unit
  | [], _ => .ok ()
  | x :: xs, f =>
    match f x with
    | some e => .error e
    | none => firstError xs f

def ensure_leaf (g : ComponentGraph) (node : Component) : Except Error Unit :=
  match g.succComponents node.component_id with
  | [] => .ok ()
  | successor :: _ =>
    .error (Error.invalid_graph (categoryId node ++ " can't have any successors. Found "
      ++ categoryId successor ++ "."))

def ensure_not_leaf (g : ComponentGraph) (node : Component) : Except Error Unit :=
  match g.succComponents node.component_id with
  | [] =>
    .error (Error.invalid_graph (categoryId node ++ " must have at least one successor."))
  | _ :: _ => .ok ()

def ensure_root (g : ComponentGraph) (node : Component) : Except Error Unit :=
  match g.predComponents node.component_id with
  | [] => .ok ()
  | predecessor :: _ =>
    .error (Error.invalid_graph (categoryId node ++ " can't have any predecessors. Found "
      ++ categoryId predecessor ++ "."))

def ensure_exclusive_successors (g : ComponentGraph) (node : Component) :
    Except Error Unit :=
  firstError (g.succComponents node.component_id) (fun successor =>
    if 1 < (g.predIds successor.component_id).length then
      some (Error.invalid_graph (categoryId node
        ++ " can't have successors with multiple predecessors. Found "
        ++ categoryId successor ++ "."))
    else none)

/-- Modelled from the spec: `ensure_on_predecessors` is called by
`validate_neighbors.rs` but its definition is not among the source files;
the message format is fixed by the expected strings in the tests of
`validate_neighbors.rs` and by scenario S4 of the spec. -/
def ensure_on_predecessors (g : ComponentGraph) (node : Component)
    (pred : Component → Bool) (desc : String) : Except Error Unit :=
  firstError (g.predComponents node.component_id) (fun p =>
    if pred p then none
    else some (Error.invalid_graph (categoryId node
      ++ " can only have predecessors that are " ++ desc ++ ". Found "
      ++ categoryId p ++ ".")))

/-- Modelled from the spec: `ensure_on_successors` is called by
`validate_neighbors.rs` but its definition is not among the source files;
the message format is fixed by the expected strings in the tests of
`validate_neighbors.rs` and by scenario S4 of the spec. -/
def ensure_on_successors (g : ComponentGraph) (node : Component)
    (pred : Component → Bool) (desc : String) : Except Error Unit :=
  firstError (g.succComponents node.component_id) (fun s =>
    if pred s then none
    else some (Error.invalid_graph (categoryId node
      ++ " can only have successors that are " ++ desc ++ ". Found "
      ++ categoryId s ++ ".")))

/-! ## Per-category validators (`src/graph/validation/validate_neighbors.rs`) -/

/-- Sequential first-failure iteration over a component list. -/
def validateList : List Component → (Component → Except Error Unit) → Except Error Unit
  | [], _ => .ok ()
  | x :: xs, f =>
    match f x with
    | .error e => .error e
    | .ok _ => validateList xs f

def validate_root (g : ComponentGraph) (root : Component) : Except Error Unit :=
  match ensure_root g root with
  | .error e => .error e
  | .ok _ =>
    match ensure_not_leaf g root with
    | .error e => .error e
    | .ok _ => ensure_exclusive_successors g root

def validate_meters (g : ComponentGraph) : Except Error Unit :=
  validateList (g.components.filter Component.is_meter) (fun meter =>
    match ensure_on_predecessors g meter (fun n => n.is_grid || n.is_meter)
        ("the Grid or a Meter") with
    | .error e => .error e
    | .ok _ => ensure_on_successors g meter (fun n => !n.is_battery) ("not Batteries"))

def validate_inverters (g : ComponentGraph) : Except Error Unit :=
  validateList (g.components.filter Component.is_inverter) (fun inverter =>
    match inverter.category with
    | .Inverter inverter_type =>
      match ensure_on_predecessors g inverter (fun n => n.is_grid || n.is_meter)
          ("the Grid or a Meter") with
      | .error e => .error e
      | .ok _ =>
        match inverter_type with
        | .Battery =>
          match ensure_not_leaf g inverter with
          | .error e => .error e
          | .ok _ => ensure_on_successors g inverter Component.is_battery ("Batteries")
        | .Solar => ensure_leaf g inverter
        | .Hybrid => ensure_on_successors g inverter Component.is_battery ("Batteries")
        | .Unspecified =>
          if !g.config.allow_unspecified_inverters then
            .error (Error.invalid_graph ("Inverter " ++ toString inverter.component_id
              ++ " has an unspecified inverter type."))
          else .ok ()
    | _ => .ok ())

def validate_batteries (g : ComponentGraph) : Except Error Unit :=
  validateList (g.components.filter Component.is_battery) (fun battery =>
    match ensure_leaf g battery with
    | .error e => .error e
    | .ok _ =>
      ensure_on_predecessors g battery
        (fun n => n.is_battery_inverter g.config || n.is_hybrid_inverter)
        ("BatteryInverters or HybridInverters"))

def validate_ev_chargers (g : ComponentGraph) : Except Error Unit :=
  validateList (g.components.filter Component.is_ev_charger) (fun ev_charger =>
    match ensure_leaf g ev_charger with
    | .error e => .error e
    | .ok _ =>
      ensure_on_predecessors g ev_charger (fun n => n.is_grid || n.is_meter)
        ("the Grid or a Meter"))

def validate_chps (g : ComponentGraph) : Except Error Unit :=
  validateList (g.components.filter Component.is_chp) (fun chp =>
    match ensure_leaf g chp with
    | .error e => .error e
    | .ok _ =>
      ensure_on_predecessors g chp (fun n => n.is_grid || n.is_meter)
        ("the Grid or a Meter"))

/-! ## Graph-shape validators (`src/graph/validation/validate_graph.rs`) -/

/-! `ComponentGraphValidator::validate_acyclicity`: a DFS carrying the
current path; a successor already on the path yields the cycle error.
The Rust recursion terminates because the path cannot revisit a node
without erroring; the embedding threads fuel, decremented on every
recursion step. -/

mutual

def validate_acyclicity (g : ComponentGraph) :
    Nat → Component → List Nat → Except Error Unit
  | 0, _, _ => .error (Error.internal ("Acyclicity fuel exhausted."))
  | fuel + 1, node, predecessors =>
    acycLoop g fuel (g.succComponents node.component_id)
      (predecessors ++ [node.component_id])

def acycLoop (g : ComponentGraph) :
    Nat → List Component → List Nat → Except Error Unit
  | 0, _, _ => .error (Error.internal ("Acyclicity fuel exhausted."))
  | _ + 1, [], _ => .ok ()
  | fuel + 1, successor :: rest, predecessors =>
    match predecessors.findIdx? (fun id => id == successor.component_id) with
    | some first_occurrence =>
      .error (Error.invalid_graph ("Cycle detected: "
        ++ String.intercalate " -> " ((predecessors.drop first_occurrence).map toString)
        ++ " -> " ++ toString successor.component_id))
    | none =>
      match validate_acyclicity g fuel successor predecessors with
      | .error e => .error e
      | .ok _ => acycLoop g fuel rest predecessors

end

/-- The worklist of `ComponentGraphValidator::validate_connected_graph`:
`queue.pop()` takes the most recently pushed id; every successor is
inserted into `visited` and pushed. -/
def connectedLoop (g : ComponentGraph) :
    Nat → List Nat → List Nat → Except Error (List Nat)
  | 0, _, _ => .error (Error.internal ("Connectivity fuel exhausted."))
  | _ + 1, [], visited => .ok visited
  | fuel + 1, node_id :: queue, visited =>
    let succs := g.succIds node_id
    connectedLoop g fuel (succs.reverse ++ queue)
      (succs.foldl (fun v s => if v.contains s then v else v ++ [s]) visited)

def validate_connected_graph (g : ComponentGraph) (root : Component) :
    Except Error Unit :=
  match connectedLoop g (graphFuel g) [root.component_id] [root.component_id] with
  | .error e => .error e
  | .ok visited =>
    let unvisited := (g.components.map Component.component_id).filter
      (fun id => !visited.contains id)
    if !unvisited.isEmpty then
      .error (Error.invalid_graph ("Nodes " ++ debugList unvisited
        ++ " are not connected to the root."))
    else .ok ()

/-! ## The validator driver (`src/graph/validation.rs`) -/

/-- One `if let Err(err) = result { errors.push(err); validation_failed = flag }`
step: the flag is *assigned* (not or-ed) on each failure, as in the
source. -/
def collectStep (acc : List Error × Bool) (result : Except Error Unit) (flag : Bool) :
    List Error × Bool :=
  match result with
  | .ok _ => acc
  | .error e => (acc.1 ++ [e], flag)

/-- The list of collected validation failures together with the final
`validation_failed` flag, in the push order of `ComponentGraph::validate`:
connectedness first, then the six per-category validators. -/
def collectedErrors (g : ComponentGraph) (root : Component) : List Error × Bool :=
  let st := collectStep ([], false) (validate_connected_graph g root)
    (!g.config.allow_unconnected_components)
  let st := collectStep st (validate_root g root)
    (!g.config.allow_component_validation_failures)
  let st := collectStep st (validate_meters g)
    (!g.config.allow_component_validation_failures)
  let st := collectStep st (validate_inverters g)
    (!g.config.allow_component_validation_failures)
  let st := collectStep st (validate_batteries g)
    (!g.config.allow_component_validation_failures)
  let st := collectStep st (validate_ev_chargers g)
    (!g.config.allow_component_validation_failures)
  collectStep st (validate_chps g) (!g.config.allow_component_validation_failures)

/-- Modelled from the spec: the claimed shape of the combined diagnostic
body, every item on its own line, indented by four spaces when the
separator is a newline followed by four spaces. -/
def joinWithSep (sep : String) : List String → String
  | [] => ""
  | x :: xs => sep ++ x ++ joinWithSep sep xs

/-- The combined multi-failure diagnostic. -/
def multiFailure (errors : List Error) : Error :=
  Error.invalid_graph ("Multiple validation failures:\n    "
    ++ String.intercalate "\n    " (errors.map errorStr))

/-- `ComponentGraph::validate`.  Acyclicity runs first and any cycle error
is returned immediately; the remaining failures are collected and, when
the final `validation_failed` flag is set, surfaced as-is (one failure) or
combined (two or more).  Failures downgraded by the configuration are only
logged in the source; the embedding drops the log call. -/
def ComponentGraph.validate (g : ComponentGraph) : Except Error Unit :=
  match g.componentOpt g.root_id with
  | none =>
    .error (Error.internal ("Grid component not found with detected component ID: "
      ++ toString g.root_id ++ "."))
  | some root =>
    match validate_acyclicity g (graphFuel g) root [] with
    | .error e => .error e
    | .ok _ =>
      match collectedErrors g root with
      | ([], _) => .ok ()
      | ([e], validation_failed) => if validation_failed then .error e else .ok ()
      | (e1 :: e2 :: rest, validation_failed) =>
        if validation_failed then .error (multiFailure (e1 :: e2 :: rest)) else .ok ()

/-! ## Graph creation (`src/graph/creation.rs`) -/

/-- The component-insertion loop of `ComponentGraph::create_graph`. -/
def createLoop (config : ComponentGraphConfig) :
    List Component → List Component → Except Error (List Component)
  | [], acc => .ok acc
  | component :: rest, acc =>
    let cid := component.component_id
    if component.is_unspecified then
      .error (Error.invalid_component
        ("ComponentCategory not specified for component: " ++ toString cid))
    else if component.is_unspecified_inverter config then
      .error (Error.invalid_component
        ("InverterType not specified for inverter: " ++ toString cid))
    else if acc.any (fun c => c.component_id == cid) then
      .error (Error.invalid_graph ("Duplicate component ID found: " ++ toString cid))
    else createLoop config rest (acc ++ [component])

def create_graph (components : List Component) (config : ComponentGraphConfig) :
    Except Error (List Component) :=
  createLoop config components []

/-- `ComponentGraph::find_root`. -/
def find_root (components : List Component) : Except Error Component :=
  match components.filter Component.is_grid with
  | [] => .error (Error.invalid_graph ("No grid component found."))
  | [root] => .ok root
  | _ :: _ :: _ => .error (Error.invalid_graph ("Multiple grid components found."))

/-- `HashMap::insert` on the `EdgeMap`: overwrite the value stored for the
key, keep everything else. -/
def edgeMapInsert (m : List ((Nat × Nat) × Connection)) (key : Nat × Nat)
    (value : Connection) : List ((Nat × Nat) × Connection) :=
  m.filter (fun kv => kv.1 != key) ++ [(key, value)]

def edgeMapGet (m : List ((Nat × Nat) × Connection)) (key : Nat × Nat) :
    Option Connection :=
  (m.find? (fun kv => kv.1 == key)).map Prod.snd

/-- One iteration of `ComponentGraph::add_connections`: reject self-loops
and missing endpoints, store the caller's edge value (last writer wins),
and `update_edge` the graph (collapsing repeated pairs). -/
def add_connection (g : ComponentGraph) (connection : Connection) :
    Except Error ComponentGraph :=
  let sid := connection.source
  let did := connection.destination
  if sid == did then
    .error (Error.invalid_connection ("Connection:(" ++ toString sid ++ ", "
      ++ toString did ++ ") Can't connect a component to itself."))
  else if (g.componentOpt sid).isNone then
    .error (Error.invalid_connection ("Connection:(" ++ toString sid ++ ", "
      ++ toString did ++ ") Can't find a component with ID " ++ toString sid))
  else if (g.componentOpt did).isNone then
    .error (Error.invalid_connection ("Connection:(" ++ toString sid ++ ", "
      ++ toString did ++ ") Can't find a component with ID " ++ toString did))
  else
    .ok { g with
      edge_values := edgeMapInsert g.edge_values (sid, did) connection,
      edges := if g.edges.contains (sid, did) then g.edges else g.edges ++ [(sid, did)] }

def add_connections (g : ComponentGraph) : List Connection → Except Error ComponentGraph
  | [] => .ok g
  | c :: rest =>
    match add_connection g c with
    | .error e => .error e
    | .ok g2 => add_connections g2 rest

/-- `ComponentGraph::try_new`. -/
def ComponentGraph.try_new (components : List Component) (connections : List Connection)
    (config : ComponentGraphConfig) : Except Error ComponentGraph :=
  match create_graph components config with
  | .error e => .error e
  | .ok comps =>
    match find_root comps with
    | .error e => .error e
    | .ok root =>
      match add_connections ⟨comps, [], [], root.component_id, config⟩ connections with
      | .error e => .error e
      | .ok g =>
        match g.validate with
        | .error e => .error e
        | .ok _ => .ok g

/-!
# Lemma layer

The remainder of the file proves properties of the embedded definitions.
-/

def Expr.isAdd : Expr → Bool
  | .Add _ => true
  | _ => false

def Expr.isSub : Expr → Bool
  | .Sub _ => true
  | _ => false

/-! ## Concrete scenario inputs (spec section 8)

The graph values below are spelled out directly; the `try_new` equations in
the claim theorems check that construction from the raw component and
connection lists produces exactly these values. -/

/-- Scenario S2: Grid#0, Meter#1, Meter#2, BatteryInverter#3, Battery#4. -/
def s2Components : List Component :=
  [⟨0, .Grid, true⟩, ⟨1, .Meter, true⟩, ⟨2, .Meter, true⟩,
   ⟨3, .Inverter .Battery, true⟩, ⟨4, .Battery .LiIon, true⟩]

/-- Scenario S2 connections: 0→1, 1→2, 2→3, 3→4. -/
def s2Connections : List Connection :=
  [⟨0, 1, 0⟩, ⟨1, 2, 0⟩, ⟨2, 3, 0⟩, ⟨3, 4, 0⟩]

/-- The graph `try_new` builds from the S2 inputs. -/
def s2Graph : ComponentGraph :=
  ⟨s2Components, [(0, 1), (1, 2), (2, 3), (3, 4)],
   [((0, 1), ⟨0, 1, 0⟩), ((1, 2), ⟨1, 2, 0⟩), ((2, 3), ⟨2, 3, 0⟩), ((3, 4), ⟨3, 4, 0⟩)],
   0, {}⟩

/-- Scenario S3: the S2 graph plus Battery#5 also under inverter #3. -/
def s3Components : List Component := s2Components ++ [⟨5, .Battery .LiIon, true⟩]

def s3Connections : List Connection := s2Connections ++ [⟨3, 5, 0⟩]

def s3Graph : ComponentGraph :=
  ⟨s3Components, [(0, 1), (1, 2), (2, 3), (3, 4), (3, 5)],
   [((0, 1), ⟨0, 1, 0⟩), ((1, 2), ⟨1, 2, 0⟩), ((2, 3), ⟨2, 3, 0⟩), ((3, 4), ⟨3, 4, 0⟩),
    ((3, 5), ⟨3, 5, 0⟩)],
   0, {}⟩

/-- Scenario S4 components: Grid#1, Meter#2, Battery(LiIon)#3. -/
def s4Components : List Component :=
  [⟨1, .Grid, true⟩, ⟨2, .Meter, true⟩, ⟨3, .Battery .LiIon, true⟩]

def s4Connections : List Connection := [⟨1, 2, 0⟩, ⟨2, 3, 0⟩]

def s4Graph : ComponentGraph :=
  ⟨s4Components, [(1, 2), (2, 3)], [((1, 2), ⟨1, 2, 0⟩), ((2, 3), ⟨2, 3, 0⟩)], 1, {}⟩

/-- Scenario S5 components: Grid#1, Meter#2, Meter#3. -/
def s5Components : List Component :=
  [⟨1, .Grid, true⟩, ⟨2, .Meter, true⟩, ⟨3, .Meter, true⟩]

def s5Connections : List Connection := [⟨1, 2, 0⟩, ⟨2, 3, 0⟩, ⟨3, 2, 0⟩]

def s5Graph : ComponentGraph :=
  ⟨s5Components, [(1, 2), (2, 3), (3, 2)],
   [((1, 2), ⟨1, 2, 0⟩), ((2, 3), ⟨2, 3, 0⟩), ((3, 2), ⟨3, 2, 0⟩)], 1, {}⟩

/-- A valid graph whose battery inverter hangs directly off the grid:
Grid#1 → BatteryInverter#2 → Battery#3. -/
def invUnderGridComponents : List Component :=
  [⟨1, .Grid, true⟩, ⟨2, .Inverter .Battery, true⟩, ⟨3, .Battery .LiIon, true⟩]

def invUnderGridConnections : List Connection := [⟨1, 2, 0⟩, ⟨2, 3, 0⟩]

def invUnderGridGraph : ComponentGraph :=
  ⟨invUnderGridComponents, [(1, 2), (2, 3)],
   [((1, 2), ⟨1, 2, 0⟩), ((2, 3), ⟨2, 3, 0⟩)], 1, {}⟩

/-- A graph with a single validation failure: a grid with no successors. -/
def lonelyGridGraph : ComponentGraph := ⟨[⟨1, .Grid, true⟩], [], [], 1, {}⟩

/-- A graph with a connectedness failure (Meter#5 unreachable) and one
per-category failure (CHP#3 has a successor). -/
def connPlusChpGraph : ComponentGraph :=
  ⟨[⟨1, .Grid, true⟩, ⟨2, .Meter, true⟩, ⟨3, .Chp, true⟩, ⟨4, .Electrolyzer, true⟩,
    ⟨5, .Meter, true⟩],
   [(1, 2), (2, 3), (3, 4)],
   [((1, 2), ⟨1, 2, 0⟩), ((2, 3), ⟨2, 3, 0⟩), ((3, 4), ⟨3, 4, 0⟩)], 1, {}⟩

/-- A small valid graph used by the connection-insertion witnesses. -/
def pairGraph : ComponentGraph :=
  ⟨[⟨1, .Grid, true⟩, ⟨2, .Meter, true⟩], [(1, 2)], [((1, 2), ⟨1, 2, 0⟩)], 1, {}⟩

theorem wE_pos : ∀ e : Expr, 1 ≤ wE e := by
  intro e; cases e <;> simp [wE]

theorem wList_append : ∀ l1 l2 : List Expr, wList (l1 ++ l2) = wList l1 + wList l2
  | [], l2 => by simp [wList]
  | e :: es, l2 => by simp [wList, wList_append es l2]; omega

theorem sal_aal_bounds : ∀ (e : Expr) (t : List Expr),
    (wE (subAddList t e) ≤ wList t + wE e + 2 ∧ (subAddList t e).isNeg = false) ∧
    (wE (addAddList t e) ≤ wList t + wE e + 1 ∧ (addAddList t e).isNeg = false)
  | .Neg q, t => by
    have ih := sal_aal_bounds q t
    refine ⟨⟨?_, ?_⟩, ⟨?_, ?_⟩⟩
    · simpa [subAddList, wE] using ih.2.1.trans (by omega)
    · simpa [subAddList] using ih.2.2
    · simpa [addAddList, wE] using ih.1.1.trans (by omega)
    · simpa [addAddList] using ih.1.2
  | .Number v, t => by
    simp [subAddList, addAddList, wE, wList, wList_append, Expr.isNeg] <;> omega
  | .Component k, t => by
    simp [subAddList, addAddList, wE, wList, wList_append, Expr.isNeg] <;> omega
  | .Add ys, t => by
    simp [subAddList, addAddList, wE, wList, wList_append, Expr.isNeg] <;> omega
  | .Sub ys, t => by
    simp [subAddList, addAddList, wE, wList, wList_append, Expr.isNeg] <;> omega
  | .Coalesce ys, t => by
    simp [subAddList, addAddList, wE, wList, wList_append, Expr.isNeg] <;> omega
  | .Min ys, t => by
    simp [subAddList, addAddList, wE, wList, wList_append, Expr.isNeg] <;> omega
  | .Max ys, t => by
    simp [subAddList, addAddList, wE, wList, wList_append, Expr.isNeg] <;> omega

theorem w_negE : ∀ x : Expr, wE (negE x) ≤ wE x + 1
  | .Neg p => by simp [negE, wE]; omega
  | .Number v => by simp [negE, wE]
  | .Component k => by simp [negE, wE]
  | .Add ps => by simp [negE, wE]
  | .Sub [] => by simp [negE, wE, wList]
  | .Sub (h :: t) => by
    have := (sal_aal_bounds h t).1.1
    simp [negE, wE, wList] at this ⊢; omega
  | .Coalesce ps => by simp [negE, wE]
  | .Min ps => by simp [negE, wE]
  | .Max ps => by simp [negE, wE]

theorem isNeg_negE_sub : ∀ xs : List Expr, (negE (.Sub xs)).isNeg = false
  | [] => by simp [negE, Expr.isNeg]
  | h :: t => (sal_aal_bounds h t).1.2

theorem nuE_zero : ∀ e : Expr, e.isNeg = false → nuE e = 0 := by
  intro e h
  cases e <;> simp_all [Expr.isNeg, nuE]

theorem nuE_negE_sub (xs : List Expr) : nuE (negE (.Sub xs)) = 0 :=
  nuE_zero _ (isNeg_negE_sub xs)

/-- Any fuel of at least `opFuel` computes the same value: one step. -/
theorem fuel_add_sub_stable : ∀ n : Nat,
    (∀ a b : Expr, 3 * (wE a + wE b) + nuE a ≤ n → addF (n + 1) a b = addF n a b) ∧
    (∀ a b : Expr, 3 * (wE a + wE b) + nuE a ≤ n → subF (n + 1) a b = subF n a b) := by
  intro n
  induction n using Nat.strong_induction_on with
  | _ n IH =>
    constructor
    · intro a b h
      have hwa := wE_pos a
      have hwb := wE_pos b
      obtain ⟨m, rfl⟩ : ∃ m, n = m + 1 := ⟨n - 1, by omega⟩
      rcases a with pa | va | ka | la | sa | fa | ma | xa <;>
        rcases b with pb | vb | kb | lb | sb | fb | mb | xb <;>
        first
        | rfl
        | exact congrArg negE ((IH _ (by omega)).1 _ _
            (by simp only [wE, nuE] at h ⊢; omega))
        | exact (IH _ (by omega)).2 _ _
            (by simp only [wE, nuE] at h ⊢; omega)
    · intro a b h
      have hwa := wE_pos a
      have hwb := wE_pos b
      obtain ⟨m, rfl⟩ : ∃ m, n = m + 1 := ⟨n - 1, by omega⟩
      rcases a with pa | va | ka | la | sa | fa | ma | xa <;>
        rcases b with pb | vb | kb | lb | sb | fb | mb | xb <;>
        first
        | rfl
        | exact congrArg negE ((IH _ (by omega)).1 _ _
            (by simp only [wE, nuE] at h ⊢; omega))
        | exact (IH _ (by omega)).1 _ _
            (by simp only [wE, nuE] at h ⊢; omega)
        | (have h1 := w_negE (Expr.Sub sb)
           have h2 := nuE_negE_sub sb
           show subF (m + 1) (negE (Expr.Sub sb)) pa = subF m (negE (Expr.Sub sb)) pa
           exact (IH m (by omega)).2 _ _
            (by simp only [wE, nuE] at h h1; omega))

theorem addF_add_fuel : ∀ (d n : Nat) (a b : Expr), opFuel a b ≤ n →
    addF (n + d) a b = addF n a b
  | 0, _, _, _, _ => rfl
  | d + 1, n, a, b, h => by
    have h1 : addF (n + d + 1) a b = addF (n + d) a b :=
      (fuel_add_sub_stable (n + d)).1 a b (le_trans h (by omega))
    calc addF (n + (d + 1)) a b = addF (n + d + 1) a b := by rw [Nat.add_succ]
    _ = addF (n + d) a b := h1
    _ = addF n a b := addF_add_fuel d n a b h

theorem subF_add_fuel : ∀ (d n : Nat) (a b : Expr), opFuel a b ≤ n →
    subF (n + d) a b = subF n a b
  | 0, _, _, _, _ => rfl
  | d + 1, n, a, b, h => by
    have h1 : subF (n + d + 1) a b = subF (n + d) a b :=
      (fuel_add_sub_stable (n + d)).2 a b (le_trans h (by omega))
    calc subF (n + (d + 1)) a b = subF (n + d + 1) a b := by rw [Nat.add_succ]
    _ = subF (n + d) a b := h1
    _ = subF n a b := subF_add_fuel d n a b h

/-- Any sufficient fuel computes `Expr.add`. -/
theorem addF_eq_add (n : Nat) (a b : Expr) (h : opFuel a b ≤ n) :
    addF n a b = Expr.add a b := by
  have e : n = opFuel a b + (n - opFuel a b) := by omega
  rw [Expr.add, e]
  exact addF_add_fuel _ _ _ _ (le_refl _)

/-- Any sufficient fuel computes `Expr.sub`. -/
theorem subF_eq_sub (n : Nat) (a b : Expr) (h : opFuel a b ≤ n) :
    subF n a b = Expr.sub a b := by
  have e : n = opFuel a b + (n - opFuel a b) := by omega
  rw [Expr.sub, e]
  exact subF_add_fuel _ _ _ _ (le_refl _)


theorem add_neg_neg (a b : Expr) : Expr.add (.Neg a) (.Neg b) = Expr.neg (Expr.add a b) := by
  obtain ⟨k, hk⟩ : ∃ k, opFuel (.Neg a) (.Neg b) = k + 1 :=
    ⟨opFuel (.Neg a) (.Neg b) - 1, by simp [opFuel, wE, nuE]; omega⟩
  rw [Expr.add, hk]
  show negE (addF k a b) = Expr.neg (Expr.add a b)
  rw [addF_eq_add k a b (by simp only [opFuel, wE, nuE] at hk ⊢; omega)]
  rfl

theorem add_any_neg (a b : Expr) (ha : a.isNeg = false) :
    Expr.add a (.Neg b) = Expr.sub a b := by
  obtain ⟨k, hk⟩ : ∃ k, opFuel a (.Neg b) = k + 1 :=
    ⟨opFuel a (.Neg b) - 1, by have := wE_pos a; simp [opFuel, wE]; omega⟩
  rw [Expr.add, hk]
  rcases a with p | v | c | l | s | f | m | x
  case Neg => exact absurd ha (by simp [Expr.isNeg])
  all_goals exact subF_eq_sub _ _ _ (by simp only [opFuel, wE, nuE] at hk ⊢; omega)

theorem add_neg_any (a b : Expr) (hb : b.isNeg = false) :
    Expr.add (.Neg a) b = Expr.sub b a := by
  obtain ⟨k, hk⟩ : ∃ k, opFuel (.Neg a) b = k + 1 :=
    ⟨opFuel (.Neg a) b - 1, by simp [opFuel, wE, nuE]; omega⟩
  rw [Expr.add, hk]
  rcases b with p | v | c | l | s | f | m | x
  case Neg => exact absurd hb (by simp [Expr.isNeg])
  all_goals exact subF_eq_sub _ _ _ (by have := wE_pos a; simp only [opFuel, wE, nuE] at hk ⊢; omega)

theorem add_add_add (xs ys : List Expr) :
    Expr.add (.Add xs) (.Add ys) = .Add (xs ++ ys) := by
  obtain ⟨k, hk⟩ : ∃ k, opFuel (.Add xs) (.Add ys) = k + 1 :=
    ⟨opFuel (.Add xs) (.Add ys) - 1, by simp [opFuel, wE, nuE]; omega⟩
  rw [Expr.add, hk]
  rfl

theorem add_add_any (xs : List Expr) (y : Expr) (hy1 : y.isNeg = false)
    (hy2 : y.isAdd = false) : Expr.add (.Add xs) y = .Add (xs ++ [y]) := by
  obtain ⟨k, hk⟩ : ∃ k, opFuel (.Add xs) y = k + 1 :=
    ⟨opFuel (.Add xs) y - 1, by have := wE_pos y; simp [opFuel, wE]; omega⟩
  rw [Expr.add, hk]
  rcases y with p | v | c | l | s | f | m | x
  case Neg => exact absurd hy1 (by simp [Expr.isNeg])
  case Add => exact absurd hy2 (by simp [Expr.isAdd])
  all_goals rfl

theorem add_any_add (x : Expr) (ys : List Expr) (hx1 : x.isNeg = false)
    (hx2 : x.isAdd = false) : Expr.add x (.Add ys) = .Add (x :: ys) := by
  obtain ⟨k, hk⟩ : ∃ k, opFuel x (.Add ys) = k + 1 :=
    ⟨opFuel x (.Add ys) - 1, by have := wE_pos x; simp [opFuel, wE]; omega⟩
  rw [Expr.add, hk]
  rcases x with p | v | c | l | s | f | m | x
  case Neg => exact absurd hx1 (by simp [Expr.isNeg])
  case Add => exact absurd hx2 (by simp [Expr.isAdd])
  all_goals rfl

theorem add_catch (a b : Expr) (ha1 : a.isNeg = false) (ha2 : a.isAdd = false)
    (hb1 : b.isNeg = false) (hb2 : b.isAdd = false) :
    Expr.add a b = .Add [a, b] := by
  obtain ⟨k, hk⟩ : ∃ k, opFuel a b = k + 1 :=
    ⟨opFuel a b - 1, by have := wE_pos a; have := wE_pos b; simp [opFuel]; omega⟩
  rw [Expr.add, hk]
  rcases a with p | v | c | l | s | f | m | x
  case Neg => exact absurd ha1 (by simp [Expr.isNeg])
  case Add => exact absurd ha2 (by simp [Expr.isAdd])
  all_goals rcases b with p2 | v2 | c2 | l2 | s2 | f2 | m2 | x2
  all_goals first
    | rfl
    | (revert hb1; simp [Expr.isNeg]; done)
    | (revert hb2; simp [Expr.isAdd]; done)

theorem sub_sub_neg (xs : List Expr) (y : Expr) :
    Expr.sub (.Sub xs) (.Neg y) = Expr.add (.Sub xs) y := by
  obtain ⟨k, hk⟩ : ∃ k, opFuel (.Sub xs) (.Neg y) = k + 1 :=
    ⟨opFuel (.Sub xs) (.Neg y) - 1, by simp [opFuel, wE, nuE]; omega⟩
  rw [Expr.sub, hk]
  exact addF_eq_add _ _ _ (by have := wE_pos y; simp only [opFuel, wE, nuE] at hk ⊢; omega)

theorem sub_sub_any (xs : List Expr) (y : Expr) (hy : y.isNeg = false) :
    Expr.sub (.Sub xs) y = .Sub (xs ++ [y]) := by
  obtain ⟨k, hk⟩ : ∃ k, opFuel (.Sub xs) y = k + 1 :=
    ⟨opFuel (.Sub xs) y - 1, by have := wE_pos y; simp [opFuel, wE]; omega⟩
  rw [Expr.sub, hk]
  rcases y with p | v | c | l | s | f | m | x
  case Neg => exact absurd hy (by simp [Expr.isNeg])
  all_goals rfl

theorem sub_neg_neg (a b : Expr) : Expr.sub (.Neg a) (.Neg b) = .Sub [b, a] := by
  obtain ⟨k, hk⟩ : ∃ k, opFuel (.Neg a) (.Neg b) = k + 1 :=
    ⟨opFuel (.Neg a) (.Neg b) - 1, by simp [opFuel, wE, nuE]; omega⟩
  rw [Expr.sub, hk]
  rfl

theorem sub_neg_any (a b : Expr) (hb1 : b.isNeg = false) (hb2 : b.isSub = false) :
    Expr.sub (.Neg a) b = Expr.neg (Expr.add a b) := by
  obtain ⟨k, hk⟩ : ∃ k, opFuel (.Neg a) b = k + 1 :=
    ⟨opFuel (.Neg a) b - 1, by simp [opFuel, wE, nuE]; omega⟩
  rw [Expr.sub, hk]
  rcases b with p | v | c | l | s | f | m | x
  case Neg => exact absurd hb1 (by simp [Expr.isNeg])
  case Sub => exact absurd hb2 (by simp [Expr.isSub])
  all_goals
    show negE (addF k a _) = _
    rw [addF_eq_add _ _ _ (by have := wE_pos a; simp only [opFuel, wE, nuE] at hk ⊢; omega)]
    rfl

theorem sub_any_neg (a b : Expr) (ha : a.isNeg = false) :
    Expr.sub a (.Neg b) = Expr.add a b := by
  obtain ⟨k, hk⟩ : ∃ k, opFuel a (.Neg b) = k + 1 :=
    ⟨opFuel a (.Neg b) - 1, by have := wE_pos a; simp [opFuel, wE]; omega⟩
  rw [Expr.sub, hk]
  rcases a with p | v | c | l | s | f | m | x
  case Neg => exact absurd ha (by simp [Expr.isNeg])
  all_goals exact addF_eq_add _ _ _ (by simp only [opFuel, wE, nuE] at hk ⊢; omega)

theorem sub_catch (a b : Expr) (ha1 : a.isNeg = false) (ha2 : a.isSub = false)
    (hb : b.isNeg = false) : Expr.sub a b = .Sub [a, b] := by
  obtain ⟨k, hk⟩ : ∃ k, opFuel a b = k + 1 :=
    ⟨opFuel a b - 1, by have := wE_pos a; have := wE_pos b; simp [opFuel]; omega⟩
  rw [Expr.sub, hk]
  rcases a with p | v | c | l | s | f | m | x
  case Neg => exact absurd ha1 (by simp [Expr.isNeg])
  case Sub => exact absurd ha2 (by simp [Expr.isSub])
  all_goals rcases b with p2 | v2 | c2 | l2 | s2 | f2 | m2 | x2
  all_goals first
    | rfl
    | (revert hb; simp [Expr.isNeg]; done)

theorem neg_neg_row (x : Expr) : Expr.neg (.Neg x) = x := rfl

theorem subAddList_spec : ∀ (e : Expr) (t : List Expr),
    subAddList t e = Expr.sub (.Add t) e ∧ addAddList t e = Expr.add (.Add t) e
  | .Neg q, t => by
    have ih := subAddList_spec q t
    constructor
    · show addAddList t q = _
      rw [ih.2]
      exact (sub_any_neg (.Add t) q (by simp [Expr.isNeg])).symm
    · show subAddList t q = _
      rw [ih.1]
      exact (add_any_neg (.Add t) q (by simp [Expr.isNeg])).symm
  | .Number v, t => by
    exact ⟨(sub_catch _ _ (by simp [Expr.isNeg]) (by simp [Expr.isSub]) (by simp [Expr.isNeg])).symm,
      (add_add_any _ _ (by simp [Expr.isNeg]) (by simp [Expr.isAdd])).symm⟩
  | .Component c, t => by
    exact ⟨(sub_catch _ _ (by simp [Expr.isNeg]) (by simp [Expr.isSub]) (by simp [Expr.isNeg])).symm,
      (add_add_any _ _ (by simp [Expr.isNeg]) (by simp [Expr.isAdd])).symm⟩
  | .Add ys, t => by
    exact ⟨(sub_catch _ _ (by simp [Expr.isNeg]) (by simp [Expr.isSub]) (by simp [Expr.isNeg])).symm,
      (add_add_add t ys).symm⟩
  | .Sub ys, t => by
    exact ⟨(sub_catch _ _ (by simp [Expr.isNeg]) (by simp [Expr.isSub]) (by simp [Expr.isNeg])).symm,
      (add_add_any _ _ (by simp [Expr.isNeg]) (by simp [Expr.isAdd])).symm⟩
  | .Coalesce ys, t => by
    exact ⟨(sub_catch _ _ (by simp [Expr.isNeg]) (by simp [Expr.isSub]) (by simp [Expr.isNeg])).symm,
      (add_add_any _ _ (by simp [Expr.isNeg]) (by simp [Expr.isAdd])).symm⟩
  | .Min ys, t => by
    exact ⟨(sub_catch _ _ (by simp [Expr.isNeg]) (by simp [Expr.isSub]) (by simp [Expr.isNeg])).symm,
      (add_add_any _ _ (by simp [Expr.isNeg]) (by simp [Expr.isAdd])).symm⟩
  | .Max ys, t => by
    exact ⟨(sub_catch _ _ (by simp [Expr.isNeg]) (by simp [Expr.isSub]) (by simp [Expr.isNeg])).symm,
      (add_add_any _ _ (by simp [Expr.isNeg]) (by simp [Expr.isAdd])).symm⟩

theorem neg_sub_row (h : Expr) (t : List Expr) :
    Expr.neg (.Sub (h :: t)) = Expr.sub (.Add t) h :=
  (subAddList_spec h t).1

/-!
# Claim theorems
-/

set_option maxRecDepth 200000

set_option maxHeartbeats 2000000

/-- Claim C3, as stated, is false: the table row `Add(xs) + y = Add(xs ++ [y])`
fails when `y` is itself a negation, because the earlier `a + -b = a - b`
rewrite takes priority.  Here `xs = [#2, #3]` (built by `+`) and
`y = -#1` (built by unary `-`): the sum canonicalizes to the subtraction
`Sub [Add [#2, #3], #1]`, not to `Add [#2, #3, -#1]`. -/
theorem C3_counterexample :
    Expr.add (Expr.component 2) (Expr.component 3)
      = .Add [Expr.component 2, Expr.component 3]
  ∧ Expr.neg (Expr.component 1) = .Neg (Expr.component 1)
  ∧ Expr.add (.Add [Expr.component 2, Expr.component 3]) (.Neg (Expr.component 1))
      = .Sub [.Add [Expr.component 2, Expr.component 3], Expr.component 1]
  ∧ Expr.add (.Add [Expr.component 2, Expr.component 3]) (.Neg (Expr.component 1))
      ≠ .Add ([Expr.component 2, Expr.component 3] ++ [.Neg (Expr.component 1)]) := by
  refine ⟨rfl, rfl, rfl, ?_⟩
  intro h
  exact Expr.noConfusion
    ((rfl : Expr.add (.Add [Expr.component 2, Expr.component 3]) (.Neg (Expr.component 1))
        = .Sub [.Add [Expr.component 2, Expr.component 3], Expr.component 1]).symm.trans h)

/-- Claim C3 (amended): the canonicalization equations of the section 4.3
table hold with the side conditions forced by the priority of the
operators' match arms: the `a + -b` / `-a + b` rows require the other
operand not to be a negation; the `Add(xs) + y` / `x + Add(ys)` rows
require the loose operand to be neither a negation nor an addition; the
`Sub(xs) - y` row requires `y` not to be a negation; the `-a - b` row
requires `b` to be neither a negation nor a subtraction; the `a - -b` row
requires `a` not to be a negation; the remaining rows are unconditional. -/
theorem C3_canonicalization_table :
    (∀ a b : Expr, Expr.add (.Neg a) (.Neg b) = Expr.neg (Expr.add a b))
  ∧ (∀ a b : Expr, a.isNeg = false → Expr.add a (.Neg b) = Expr.sub a b)
  ∧ (∀ a b : Expr, b.isNeg = false → Expr.add (.Neg a) b = Expr.sub b a)
  ∧ (∀ xs ys : List Expr, Expr.add (.Add xs) (.Add ys) = .Add (xs ++ ys))
  ∧ (∀ (xs : List Expr) (y : Expr), y.isNeg = false → y.isAdd = false →
      Expr.add (.Add xs) y = .Add (xs ++ [y]))
  ∧ (∀ (x : Expr) (ys : List Expr), x.isNeg = false → x.isAdd = false →
      Expr.add x (.Add ys) = .Add (x :: ys))
  ∧ (∀ (xs : List Expr) (y : Expr),
      Expr.sub (.Sub xs) (.Neg y) = Expr.add (.Sub xs) y)
  ∧ (∀ (xs : List Expr) (y : Expr), y.isNeg = false →
      Expr.sub (.Sub xs) y = .Sub (xs ++ [y]))
  ∧ (∀ a b : Expr, Expr.sub (.Neg a) (.Neg b) = .Sub [b, a])
  ∧ (∀ a b : Expr, b.isNeg = false → b.isSub = false →
      Expr.sub (.Neg a) b = Expr.neg (Expr.add a b))
  ∧ (∀ a b : Expr, a.isNeg = false → Expr.sub a (.Neg b) = Expr.add a b)
  ∧ (∀ x : Expr, Expr.neg (.Neg x) = x)
  ∧ (∀ (h : Expr) (t : List Expr), Expr.neg (.Sub (h :: t)) = Expr.sub (.Add t) h) :=
  ⟨add_neg_neg, add_any_neg, add_neg_any, add_add_add, add_add_any, add_any_add,
   sub_sub_neg, sub_sub_any, sub_neg_neg, sub_neg_any, sub_any_neg, neg_neg_row,
   neg_sub_row⟩

/-- Witness for the amended C3 table at concrete inputs. -/
theorem C3_canonicalization_table_witness :
    Expr.add (.Add [Expr.component 2]) (Expr.component 3)
      = .Add [Expr.component 2, Expr.component 3]
  ∧ Expr.sub (Expr.component 5) (.Neg (Expr.component 6))
      = Expr.add (Expr.component 5) (Expr.component 6) :=
  ⟨C3_canonicalization_table.2.2.2.2.1 [Expr.component 2] (Expr.component 3) rfl rfl,
   C3_canonicalization_table.2.2.2.2.2.2.2.2.2.2.1 (Expr.component 5) (Expr.component 6) rfl⟩

/-- Claim C4: on the scenario-S2 graph (Grid#0, Meter#1, Meter#2,
BatteryInverter#3, Battery#4 with connections 0→1, 1→2, 2→3, 3→4, all
components supported), `consumer_formula()` returns exactly
`MAX(0.0, #1 - COALESCE(#2, #3)) + COALESCE(MAX(0.0, #2 - #3), 0.0)`. -/
theorem C4_consumer_formula_s2 :
    ComponentGraph.try_new s2Components s2Connections {} = .ok s2Graph
  ∧ s2Graph.consumer_formula
      = .ok "MAX(0.0, #1 - COALESCE(#2, #3)) + COALESCE(MAX(0.0, #2 - #3), 0.0)" :=
  ⟨rfl, rfl⟩


/-- Claim C2: for every graph and id c whose component is a meter with at
least one successor and no meter among its successors, `meter_fallback`
emits `COALESCE(sum, #c)` (reversed under `prefer_meters`) when every
successor is supported, and `#c` alone when some successor is
unsupported. -/
theorem C2_meter_fallback (g : ComponentGraph) (prefer_meters : Bool) (c : Nat)
    (comp : Component) (sumE : Expr)
    (hc : g.componentOpt c = some comp)
    (hm : comp.is_meter = true)
    (hs : (g.succIds c).isEmpty = false)
    (hnm : (g.succComponents c).any Component.is_meter = false)
    (hsum : reduceAdd (Expr.components ((g.succComponents c).map Component.component_id))
        = some sumE) :
    ((g.succComponents c).all Component.is_supported = true →
      g.meter_fallback prefer_meters c = .ok (some (Expr.coalesce
        (if prefer_meters then [Expr.component c, sumE] else [sumE, Expr.component c]))))
  ∧ ((g.succComponents c).all Component.is_supported = false →
      g.meter_fallback prefer_meters c = .ok (some (Expr.component c))) := by
  constructor <;> intro hall <;>
    · simp only [ComponentGraph.meter_fallback, ComponentGraph.component, hc, hm, hs, hnm,
        hall, hsum, Bool.not_false, Bool.and_true, Bool.true_and, Bool.and_false, if_true,
        Bool.not_true]
      cases prefer_meters <;> rfl

/-- Witness for C2 on the scenario-S2 graph at meter 2. -/
theorem C2_meter_fallback_witness :
    s2Graph.meter_fallback false 2
      = .ok (some (Expr.coalesce [Expr.component 3, Expr.component 2])) :=
  (C2_meter_fallback s2Graph false 2 ⟨2, .Meter, true⟩ (Expr.component 3)
    rfl rfl rfl rfl rfl).1 rfl

/-- Claim C1 (amended): for a popped id c of fallback category, when some
sibling-from-predecessors of c is missing from the work set `#c` is
emitted alone; when all siblings are present the code additionally
requires every predecessor to be a component meter (`unwrap_or(false)`)
before removing the siblings from the work set and recursing on the
sorted predecessor ids; otherwise it emits nothing and leaves the work
set unchanged (the original claim omits the predecessor-meter
condition). -/
theorem C1_component_fallback_amended (g : ComponentGraph) (prefer_meters : Bool)
    (fuel : Nat) (s : List Nat) (c : Nat) (comp : Component)
    (hc : g.componentOpt c = some comp)
    (hcat : (comp.is_battery_inverter g.config || comp.is_chp || comp.is_pv_inverter
        || comp.is_ev_charger) = true) :
    ((((g.siblingIdsFromPredecessors c).filterMap g.componentOpt).filter
        (fun x => x.component_id != c)).all (fun x => s.contains x.component_id) = false →
      component_fallback g prefer_meters (fuel + 1) s c = .ok (some [Expr.component c], s))
  ∧ ((((g.siblingIdsFromPredecessors c).filterMap g.componentOpt).filter
        (fun x => x.component_id != c)).all (fun x => s.contains x.component_id) = true →
      ((g.predComponents c).all
          (fun p => resultTrue (g.is_component_meter p.component_id)) = true →
        component_fallback g prefer_meters (fuel + 1) s c =
          (match fallback_for_each g prefer_meters fuel
              (toSortedSet ((g.predComponents c).map Component.component_id)) with
           | .error e => .error e
           | .ok exprs => .ok (some exprs,
              s.filter (fun x =>
                !(((g.siblingIdsFromPredecessors c).filterMap g.componentOpt).filter
                  (fun t => t.component_id != c)).any (fun t => t.component_id == x)))))
    ∧ ((g.predComponents c).all
          (fun p => resultTrue (g.is_component_meter p.component_id)) = false →
        component_fallback g prefer_meters (fuel + 1) s c = .ok (none, s))) := by
  refine ⟨fun hsib => ?_, fun hsib => ⟨fun hpred => ?_, fun hpred => ?_⟩⟩
  · simp only [component_fallback, ComponentGraph.component,
      ComponentGraph.siblings_from_predecessors, hc, hcat, hsib,
      Bool.not_false, if_true]
  · simp only [component_fallback, ComponentGraph.component,
      ComponentGraph.siblings_from_predecessors, ComponentGraph.predecessors,
      hc, hcat, hsib, hpred, Bool.not_true, Bool.false_eq_true, if_true, if_false, reduceIte]
  · simp only [component_fallback, ComponentGraph.component,
      ComponentGraph.siblings_from_predecessors, ComponentGraph.predecessors,
      hc, hcat, hsib, hpred, Bool.not_true, Bool.false_eq_true, if_true, if_false, reduceIte]

/-- Witness for C1 on the inverter-under-grid graph at component 2. -/
theorem C1_component_fallback_amended_witness :
    component_fallback invUnderGridGraph false 5 [] 2 = .ok (none, []) :=
  ((C1_component_fallback_amended invUnderGridGraph false 4 [] 2
      ⟨2, .Inverter .Battery, true⟩ rfl rfl).2 rfl).2 rfl

/-- Claim C1 counterexample: in the validated graph Grid#1 →
BatteryInverter#2 → Battery#3, component 2 has fallback category and no
siblings, yet the resolver does not recurse on its predecessor (the grid
is not a component meter): `fallback_expr([2])` yields `#2`, not
`#1`. -/
theorem C1_counterexample :
    invUnderGridGraph.validate = .ok ()
  ∧ invUnderGridGraph.componentOpt 2 = some ⟨2, .Inverter .Battery, true⟩
  ∧ ((⟨2, .Inverter .Battery, true⟩ : Component).is_battery_inverter invUnderGridGraph.config
      = true)
  ∧ (((invUnderGridGraph.siblingIdsFromPredecessors 2).filterMap
        invUnderGridGraph.componentOpt).filter (fun x => x.component_id != 2) = [])
  ∧ invUnderGridGraph.fallback_expr [2] false = .ok (Expr.component 2)
  ∧ Expr.component 2 ≠ Expr.component 1 := by
  refine ⟨rfl, rfl, rfl, rfl, rfl, ?_⟩
  intro h
  injection h with h2
  exact absurd h2 (by decide)



set_option maxRecDepth 200000
set_option maxHeartbeats 2000000

theorem intercalate_go_eq (s : String) : ∀ (l : List String) (acc : String),
    String.intercalate.go acc s l = acc ++ joinWithSep s l
  | [], acc => by simp [String.intercalate.go, joinWithSep]
  | a :: as, acc => by
    simp only [String.intercalate.go, intercalate_go_eq s as, joinWithSep,
      String.append_assoc]

theorem intercalate_sep_cons (s a : String) (l : List String) :
    s ++ String.intercalate s (a :: l) = joinWithSep s (a :: l) := by
  simp [String.intercalate, intercalate_go_eq, joinWithSep, String.append_assoc]

/-- Claim C5: when two or more failures are collected with the failing
flag set, `validate` returns a single `InvalidGraph` whose description
starts with the multi-failure heading and lists each failure on its own
line indented by four spaces; in scenario S4 `try_new` returns exactly
the two-failure body of the spec. -/
theorem C5_multi_failure :
    (∀ (g : ComponentGraph) (root : Component) (e1 e2 : Error) (rest : List Error),
      g.componentOpt g.root_id = some root →
      validate_acyclicity g (graphFuel g) root [] = .ok () →
      collectedErrors g root = (e1 :: e2 :: rest, true) →
      g.validate = .error (Error.invalid_graph ("Multiple validation failures:"
        ++ joinWithSep "\x0a    " ((e1 :: e2 :: rest).map errorStr))))
  ∧ ComponentGraph.try_new s4Components s4Connections {}
      = .error (Error.invalid_graph ("Multiple validation failures:\x0a    InvalidGraph: Meter:2 can only have successors that are not Batteries. Found Battery(LiIon):3.\x0a    InvalidGraph: Battery(LiIon):3 can only have predecessors that are BatteryInverters or HybridInverters. Found Meter:2.")) := by
  refine ⟨?_, rfl⟩
  intro g root e1 e2 rest hroot hacyc hcol
  simp only [ComponentGraph.validate, hroot, hacyc, hcol, multiFailure, List.map_cons]
  rw [← intercalate_sep_cons, ← String.append_assoc]
  rfl

/-- Witness for C5 on the scenario-S4 graph. -/
theorem C5_multi_failure_witness :
    s4Graph.validate = .error (Error.invalid_graph ("Multiple validation failures:"
      ++ joinWithSep "\x0a    "
        ([Error.invalid_graph "Meter:2 can only have successors that are not Batteries. Found Battery(LiIon):3.",
          Error.invalid_graph "Battery(LiIon):3 can only have predecessors that are BatteryInverters or HybridInverters. Found Meter:2."].map errorStr))) :=
  C5_multi_failure.1 s4Graph ⟨1, .Grid, true⟩
    (Error.invalid_graph "Meter:2 can only have successors that are not Batteries. Found Battery(LiIon):3.")
    (Error.invalid_graph "Battery(LiIon):3 can only have predecessors that are BatteryInverters or HybridInverters. Found Meter:2.")
    [] rfl rfl rfl

/-- Claim C6: a cycle error from the root DFS is returned by `validate`
immediately, before the connectedness and per-category checks; in
scenario S5 `try_new` reports the cycle 2 -> 3 -> 2. -/
theorem C6_acyclicity_short_circuit :
    (∀ (g : ComponentGraph) (root : Component) (e : Error),
      g.componentOpt g.root_id = some root →
      validate_acyclicity g (graphFuel g) root [] = .error e →
      g.validate = .error e)
  ∧ ComponentGraph.try_new s5Components s5Connections {}
      = .error (Error.invalid_graph "Cycle detected: 2 -> 3 -> 2") := by
  refine ⟨?_, rfl⟩
  intro g root e hroot hacyc
  simp only [ComponentGraph.validate, hroot, hacyc]

/-- Witness for C6 on the scenario-S5 graph. -/
theorem C6_acyclicity_short_circuit_witness :
    s5Graph.validate = .error (Error.invalid_graph "Cycle detected: 2 -> 3 -> 2") :=
  C6_acyclicity_short_circuit.1 s5Graph ⟨1, .Grid, true⟩
    (Error.invalid_graph "Cycle detected: 2 -> 3 -> 2") rfl rfl

/-- Claim C10 (implicit): a single collected failure is returned verbatim
with no multi-failure heading; the combined wrapper appears only for two
or more failures, and a connectedness failure is collected into the same
combined diagnostic as per-category failures rather than reported on its
own. -/
theorem C10_single_failure_verbatim :
    (∀ (g : ComponentGraph) (root : Component) (e : Error),
      g.componentOpt g.root_id = some root →
      validate_acyclicity g (graphFuel g) root [] = .ok () →
      collectedErrors g root = ([e], true) →
      g.validate = .error e)
  ∧ lonelyGridGraph.validate
      = .error (Error.invalid_graph "Grid:1 must have at least one successor.")
  ∧ connPlusChpGraph.validate
      = .error (multiFailure
          [Error.invalid_graph "Nodes [5] are not connected to the root.",
           Error.invalid_graph "CHP:3 can't have any successors. Found Electrolyzer:4."]) := by
  refine ⟨?_, rfl, rfl⟩
  intro g root e hroot hacyc hcol
  simp only [ComponentGraph.validate, hroot, hacyc, hcol, if_true]

/-- Witness for C10 on the single-failure graph. -/
theorem C10_single_failure_verbatim_witness :
    lonelyGridGraph.validate
      = .error (Error.invalid_graph "Grid:1 must have at least one successor.") :=
  C10_single_failure_verbatim.1 lonelyGridGraph ⟨1, .Grid, true⟩
    (Error.invalid_graph "Grid:1 must have at least one successor.") rfl rfl rfl


theorem edgeMapGet_insert (k : Nat × Nat) (v : Connection) :
    ∀ (m : List ((Nat × Nat) × Connection)), edgeMapGet (edgeMapInsert m k v) k = some v := by
  intro m
  induction m with
  | nil => simp [edgeMapInsert, edgeMapGet]
  | cons kv rest ih =>
    simp only [edgeMapInsert, List.filter_cons] at ih ⊢
    cases hk : (kv.1 != k)
    · simp only [hk, Bool.false_eq_true, if_false]
      exact ih
    · have hk2 : (kv.1 == k) = false := by simpa [bne] using hk
      simp only [hk, if_true, List.cons_append, edgeMapGet, List.find?_cons, hk2]
      exact ih

theorem contains_after_update (l : List (Nat × Nat)) (x : Nat × Nat) :
    (if l.contains x then l else l ++ [x]).contains x = true := by
  cases hc : l.contains x
  · simp [hc]
  · simp only [hc, if_true]

/-- Claim C8: `add_connection` rejects a self-loop and a missing endpoint
with the exact `InvalidConnection` messages, and a repeated `(src, dst)`
pair collapses to a single edge while the stored edge value for the pair
is the last one supplied. -/
theorem C8_connection_insertion :
    (∀ (g : ComponentGraph) (n p : Nat),
      add_connection g ⟨n, n, p⟩ = .error (Error.invalid_connection
        ("Connection:(" ++ toString n ++ ", " ++ toString n
          ++ ") Can't connect a component to itself.")))
  ∧ (∀ (g : ComponentGraph) (s d p : Nat), (s == d) = false →
      g.componentOpt s = none →
      add_connection g ⟨s, d, p⟩ = .error (Error.invalid_connection
        ("Connection:(" ++ toString s ++ ", " ++ toString d
          ++ ") Can't find a component with ID " ++ toString s)))
  ∧ (∀ (g : ComponentGraph) (s d p : Nat), (s == d) = false →
      (g.componentOpt s).isNone = false →
      g.componentOpt d = none →
      add_connection g ⟨s, d, p⟩ = .error (Error.invalid_connection
        ("Connection:(" ++ toString s ++ ", " ++ toString d
          ++ ") Can't find a component with ID " ++ toString d)))
  ∧ (∀ (g : ComponentGraph) (s d p1 p2 : Nat) (g1 g2 : ComponentGraph),
      add_connection g ⟨s, d, p1⟩ = .ok g1 →
      add_connection g1 ⟨s, d, p2⟩ = .ok g2 →
      g2.edges = g1.edges
    ∧ edgeMapGet g2.edge_values (s, d) = some ⟨s, d, p2⟩) := by
  refine ⟨?_, ?_, ?_, ?_⟩
  · intro g n p
    simp [add_connection]
  · intro g s d p hsd hcs
    simp only [add_connection, hsd, Bool.false_eq_true, if_false, hcs,
      Option.isNone_none, if_true]
  · intro g s d p hsd hcs hcd
    simp only [add_connection, hsd, Bool.false_eq_true, if_false, hcs, hcd,
      Option.isNone_none, if_true]
  · intro g s d p1 p2 g1 g2 h1 h2
    simp only [add_connection] at h1 h2
    cases hsd : (s == d)
    · rw [hsd] at h1 h2
      simp only [Bool.false_eq_true, if_false] at h1 h2
      cases hcs : (g.componentOpt s).isNone
      · rw [hcs] at h1
        simp only [Bool.false_eq_true, if_false] at h1
        cases hcd : (g.componentOpt d).isNone
        · rw [hcd] at h1
          simp only [Bool.false_eq_true, if_false, Except.ok.injEq] at h1
          subst h1
          simp only [ComponentGraph.componentOpt] at h2 hcs hcd
          rw [hcs] at h2
          simp only [Bool.false_eq_true, if_false] at h2
          rw [hcd] at h2
          simp only [Bool.false_eq_true, if_false, Except.ok.injEq] at h2
          subst h2
          refine ⟨?_, ?_⟩
          · simp only [contains_after_update, if_true]
          · exact edgeMapGet_insert (s, d) ⟨s, d, p2⟩ _
        · rw [hcd] at h1
          simp at h1
      · rw [hcs] at h1
        simp at h1
    · rw [hsd] at h1
      simp at h1

/-- Witness for C8 on the two-component graph. -/
theorem C8_connection_insertion_witness :
    add_connection pairGraph ⟨3, 3, 0⟩ = .error (Error.invalid_connection
      "Connection:(3, 3) Can't connect a component to itself.")
  ∧ add_connection pairGraph ⟨4, 2, 0⟩ = .error (Error.invalid_connection
      "Connection:(4, 2) Can't find a component with ID 4")
  ∧ add_connection pairGraph ⟨1, 5, 0⟩ = .error (Error.invalid_connection
      "Connection:(1, 5) Can't find a component with ID 5")
  ∧ ((⟨pairGraph.components, [(1, 2)], [((1, 2), ⟨1, 2, 9⟩)], 1, {}⟩ : ComponentGraph).edges
      = (⟨pairGraph.components, [(1, 2)], [((1, 2), ⟨1, 2, 7⟩)], 1, {}⟩
          : ComponentGraph).edges
    ∧ edgeMapGet (⟨pairGraph.components, [(1, 2)], [((1, 2), ⟨1, 2, 9⟩)], 1, {}⟩
        : ComponentGraph).edge_values (1, 2) = some ⟨1, 2, 9⟩) :=
  ⟨C8_connection_insertion.1 pairGraph 3 0,
   C8_connection_insertion.2.1 pairGraph 4 2 0 rfl rfl,
   C8_connection_insertion.2.2.1 pairGraph 1 5 0 rfl rfl rfl,
   C8_connection_insertion.2.2.2 pairGraph 1 2 7 9 _ _ rfl rfl⟩

theorem category_pred_pairs (a : Component) (config : ComponentGraphConfig) :
    (a.is_pv_inverter && a.is_battery_inverter config) = false
  ∧ (a.is_pv_inverter && a.is_ev_charger) = false
  ∧ (a.is_pv_inverter && a.is_chp) = false
  ∧ (a.is_battery_inverter config && a.is_ev_charger) = false
  ∧ (a.is_battery_inverter config && a.is_chp) = false
  ∧ (a.is_ev_charger && a.is_chp) = false := by
  obtain ⟨aid, acat, asup⟩ := a
  cases acat <;> try (simp [Component.is_pv_inverter, Component.is_battery_inverter,
    Component.is_ev_charger, Component.is_chp]; done)
  case Inverter it =>
    cases it <;> simp [Component.is_pv_inverter, Component.is_battery_inverter,
      Component.is_ev_charger, Component.is_chp]

theorem roleB_pair_false (l : List Component) (p q : Component → Bool)
    (hpq : ∀ a, (p a && q a) = false)
    (hploc : l.all p = true) (hqloc : l.all q = true)
    (hne : l.isEmpty = false) : False := by
  cases l with
  | nil => simp at hne
  | cons a as =>
    simp only [List.all_cons, Bool.and_eq_true] at hploc hqloc
    have h := hpq a
    rw [hploc.1, hqloc.1] at h
    simp at h

/-- Claim C9: for any component id resolving to a component, at most one
of the four meter-role classifiers returns true (stated as the six
pairwise exclusions), and with zero successors all four return false. -/
theorem C9_meter_role_exclusivity (g : ComponentGraph) (m : Nat) (comp : Component)
    (hc : g.componentOpt m = some comp) :
    (¬(g.is_pv_meter m = .ok true ∧ g.is_battery_meter m = .ok true))
  ∧ (¬(g.is_pv_meter m = .ok true ∧ g.is_ev_charger_meter m = .ok true))
  ∧ (¬(g.is_pv_meter m = .ok true ∧ g.is_chp_meter m = .ok true))
  ∧ (¬(g.is_battery_meter m = .ok true ∧ g.is_ev_charger_meter m = .ok true))
  ∧ (¬(g.is_battery_meter m = .ok true ∧ g.is_chp_meter m = .ok true))
  ∧ (¬(g.is_ev_charger_meter m = .ok true ∧ g.is_chp_meter m = .ok true))
  ∧ (g.succIds m = [] →
      g.is_pv_meter m = .ok false ∧ g.is_battery_meter m = .ok false
    ∧ g.is_ev_charger_meter m = .ok false ∧ g.is_chp_meter m = .ok false) := by
  have hpv : g.is_pv_meter m = .ok (g.pvMeterB comp) := by
    simp [ComponentGraph.is_pv_meter, ComponentGraph.component, hc]
  have hbm : g.is_battery_meter m = .ok (g.batteryMeterB comp) := by
    simp [ComponentGraph.is_battery_meter, ComponentGraph.component, hc]
  have hev : g.is_ev_charger_meter m = .ok (g.evChargerMeterB comp) := by
    simp [ComponentGraph.is_ev_charger_meter, ComponentGraph.component, hc]
  have hch : g.is_chp_meter m = .ok (g.chpMeterB comp) := by
    simp [ComponentGraph.is_chp_meter, ComponentGraph.component, hc]
  have hcid : comp.component_id = m := by
    have := List.find?_some (by simpa [ComponentGraph.componentOpt] using hc)
    simpa using this
  refine ⟨?_, ?_, ?_, ?_, ?_, ?_, ?_⟩
  · rintro ⟨h1, h2⟩
    simp only [hpv, hbm, Except.ok.injEq, ComponentGraph.pvMeterB,
      ComponentGraph.batteryMeterB, Bool.and_eq_true, Bool.not_eq_true'] at h1 h2
    exact roleB_pair_false _ _ _ (fun a => (category_pred_pairs a g.config).1)
      h1.1.2 h2.1.2 h1.2
  · rintro ⟨h1, h2⟩
    simp only [hpv, hev, Except.ok.injEq, ComponentGraph.pvMeterB,
      ComponentGraph.evChargerMeterB, Bool.and_eq_true, Bool.not_eq_true'] at h1 h2
    exact roleB_pair_false _ _ _ (fun a => (category_pred_pairs a g.config).2.1)
      h1.1.2 h2.1.2 h1.2
  · rintro ⟨h1, h2⟩
    simp only [hpv, hch, Except.ok.injEq, ComponentGraph.pvMeterB,
      ComponentGraph.chpMeterB, Bool.and_eq_true, Bool.not_eq_true'] at h1 h2
    exact roleB_pair_false _ _ _ (fun a => (category_pred_pairs a g.config).2.2.1)
      h1.1.2 h2.1.2 h1.2
  · rintro ⟨h1, h2⟩
    simp only [hbm, hev, Except.ok.injEq, ComponentGraph.batteryMeterB,
      ComponentGraph.evChargerMeterB, Bool.and_eq_true, Bool.not_eq_true'] at h1 h2
    exact roleB_pair_false _ _ _ (fun a => (category_pred_pairs a g.config).2.2.2.1)
      h1.1.2 h2.1.2 h1.2
  · rintro ⟨h1, h2⟩
    simp only [hbm, hch, Except.ok.injEq, ComponentGraph.batteryMeterB,
      ComponentGraph.chpMeterB, Bool.and_eq_true, Bool.not_eq_true'] at h1 h2
    exact roleB_pair_false _ _ _ (fun a => (category_pred_pairs a g.config).2.2.2.2.1)
      h1.1.2 h2.1.2 h1.2
  · rintro ⟨h1, h2⟩
    simp only [hev, hch, Except.ok.injEq, ComponentGraph.evChargerMeterB,
      ComponentGraph.chpMeterB, Bool.and_eq_true, Bool.not_eq_true'] at h1 h2
    exact roleB_pair_false _ _ _ (fun a => (category_pred_pairs a g.config).2.2.2.2.2)
      h1.1.2 h2.1.2 h1.2
  · intro hs
    refine ⟨?_, ?_, ?_, ?_⟩
    · rw [hpv]
      simp [ComponentGraph.pvMeterB, ComponentGraph.succComponents, hcid, hs]
    · rw [hbm]
      simp [ComponentGraph.batteryMeterB, ComponentGraph.succComponents, hcid, hs]
    · rw [hev]
      simp [ComponentGraph.evChargerMeterB, ComponentGraph.succComponents, hcid, hs]
    · rw [hch]
      simp [ComponentGraph.chpMeterB, ComponentGraph.succComponents, hcid, hs]

/-- Witness for C9 on the scenario-S2 graph at meter 2. -/
theorem C9_meter_role_exclusivity_witness :
    ¬(s2Graph.is_pv_meter 2 = .ok true ∧ s2Graph.is_battery_meter 2 = .ok true) :=
  (C9_meter_role_exclusivity s2Graph 2 ⟨2, .Meter, true⟩ rfl).1

end MCG

namespace MCG

set_option maxRecDepth 200000
set_option maxHeartbeats 2000000

theorem checkSiblingsSelected_ok (g : ComponentGraph) (bids : List Nat) (bid : Nat) :
    ∀ (sibs : List Component), checkSiblingsSelected g bids bid sibs = .ok () →
      sibs.all (fun s => bids.contains s.component_id) = true := by
  intro sibs
  induction sibs with
  | nil => intro h; rfl
  | cons s rest ih =>
    intro h
    simp only [checkSiblingsSelected] at h
    cases hc : bids.contains s.component_id
    · rw [hc] at h; simp at h
    · rw [hc] at h
      simp only [Bool.not_true, Bool.false_eq_true, if_false] at h
      rw [List.all_cons, hc, ih h]; rfl

theorem fiiLoop_siblings (g : ComponentGraph) (bids : List Nat) :
    ∀ (l : List Nat) (acc res : List Nat), fiiLoop g bids l acc = .ok res →
      ∀ b ∈ l, ((g.siblingIdsFromPredecessors b).filterMap g.componentOpt).all
        (fun s => bids.contains s.component_id) = true := by
  intro l
  induction l with
  | nil => intro acc res h b hb; simp at hb
  | cons x rest ih =>
    intro acc res h b hb
    simp only [fiiLoop] at h
    cases hcx : g.component x with
    | error e => simp only [hcx] at h; simp at h
    | ok c =>
      simp only [hcx] at h
      have hsome : g.componentOpt x = some c := by
        simp only [ComponentGraph.component] at hcx
        cases ho : g.componentOpt x <;> rw [ho] at hcx <;> simp at hcx
        rw [hcx]
      cases hbat : c.is_battery
      · simp only [hbat] at h; simp at h
      · simp only [hbat, Bool.not_true, Bool.false_eq_true, if_false,
          ComponentGraph.siblings_from_predecessors, hsome] at h
        cases hcss : checkSiblingsSelected g bids x
            ((g.siblingIdsFromPredecessors x).filterMap g.componentOpt) with
        | error e => simp only [hcss] at h; simp at h
        | ok u =>
          cases u
          simp only [hcss, ComponentGraph.predecessors, hsome] at h
          rcases List.mem_cons.mp hb with rfl | hbr
          · exact checkSiblingsSelected_ok g bids b _ hcss
          · exact ih _ _ h b hbr

/-- Claim C7: a successful `find_inverter_ids` over an explicit battery id
set implies that for every selected id all of its siblings from
predecessors are selected too; in scenario S3 `battery_formula({4})`
fails naming the missing sibling 5. -/
theorem C7_battery_siblings :
    (∀ (g : ComponentGraph) (battery_ids : List Nat) (res : List Nat) (b : Nat),
      find_inverter_ids g battery_ids = .ok res → b ∈ battery_ids →
      ((g.siblingIdsFromPredecessors b).filterMap g.componentOpt).all
        (fun s => battery_ids.contains s.component_id) = true)
  ∧ s3Graph.battery_formula (some [4])
      = .error (Error.invalid_component
          "Battery 4 can't be in a formula without all its siblings: [5].") := by
  refine ⟨?_, rfl⟩
  intro g bids res b h hb
  exact fiiLoop_siblings g bids bids [] res h b hb

/-- Witness for C7 on the scenario-S2 graph with battery 4 selected. -/
theorem C7_battery_siblings_witness :
    ((s2Graph.siblingIdsFromPredecessors 4).filterMap s2Graph.componentOpt).all
      (fun s => [4].contains s.component_id) = true :=
  C7_battery_siblings.1 s2Graph [4] [3] 4 rfl (by decide)

